import Mathlib

/-!
Verification of the structured-grid concatenation routine
(`StructuredGridFilters.concatenate`, `pyvista/core/unstructuredgridfilters.py`,
lines 146-252) against its natural-language specification.

The embedding models the grid data described in the spec's data model:
a `Grid` holds `dimensions` (three sizes), a flat Fortran-ordered list of
3-d `points`, and named per-point / per-cell / field-level data arrays.
The numpy operations invoked by the source (`np.take`, `np.allclose`,
`np.array_equal`, `np.concatenate`, basic slicing, `reshape`/`ravel` with
`order='F'`) are modelled by shape-carrying array values whose entries are
rationals, with numpy's documented axis/index normalization for negative
arguments.  Exceptions raised by numpy itself (AxisError / IndexError /
ValueError) are collapsed into a single `npRaised` error value, distinct
from the errors the source raises explicitly.
-/

namespace PyVistaConcat

/-- A 3-d point coordinate (one row of the `(n, 3)` points array). -/
structure V3 where
  x : ℚ
  y : ℚ
  z : ℚ
  deriving DecidableEq

/-- Component access: `V3.comp v l` is coordinate `l` of point `v`
(the last axis of the `(d0, d1, d2, 3)` points matrix). -/
def V3.comp (v : V3) (l : ℕ) : ℚ :=
  match l with
  | 0 => v.x
  | 1 => v.y
  | _ => v.z

/-- The `dimensions` attribute: number of points along each of the three axes. -/
abbrev Dims := ℕ × ℕ × ℕ

/-- Entry `i` of a dimensions triple (python `dims[i]` for `i` in `{0,1,2}`). -/
def getAt3 (d : Dims) (i : ℕ) : ℕ :=
  match i with
  | 0 => d.1
  | 1 => d.2.1
  | _ => d.2.2

/-- Replace entry `a` of a dimensions triple. -/
def setAt3 (d : Dims) (a : ℕ) (v : ℕ) : Dims :=
  match a with
  | 0 => (v, d.2.1, d.2.2)
  | 1 => (d.1, v, d.2.2)
  | _ => (d.1, d.2.1, v)

/-- Product of the three dimensions: the number of points of a grid. -/
def prodDims (d : Dims) : ℕ := d.1 * d.2.1 * d.2.2

/-- Fortran-order (column-major) flat index of lattice position `(i, j, k)`
in an array of dimensions `d`: index `i` varies fastest. -/
def rank3 (d : Dims) (i j k : ℕ) : ℕ := i + d.1 * (j + d.2.1 * k)

/-- The grid data object of the spec's data model (§3): `dimensions`,
flat Fortran-ordered `points`, and named point / cell / field data arrays
(association lists keyed by name, mirroring the python dicts). -/
structure Grid where
  dims : Dims
  points : List V3
  point_arrays : List (String × List ℚ)
  cell_arrays : List (String × List ℚ)
  field_arrays : List (String × List ℚ)
  deriving DecidableEq

/-- The errors `concatenate` can signal.  The first six model the
`RuntimeError`s raised explicitly by the source; `npRaised` models any
exception raised inside numpy itself (AxisError, IndexError, ValueError). -/
inductive ConcatError where
  | invalidAxis : ConcatError
  | dimensionMismatch : Dims → Dims → ConcatError
  | pointFieldNameMismatch : ConcatError
  | cellFieldNameMismatch : ConcatError
  | seamMismatch : ℤ → ℚ → ConcatError
  | seamFieldMismatch : ℤ → String → ConcatError
  | npRaised : ConcatError
  deriving DecidableEq

/-- A 2-d numpy array of rationals: shape plus value function. -/
structure Arr2 where
  s0 : ℕ
  s1 : ℕ
  val : ℕ → ℕ → ℚ

/-- A 3-d numpy array of rationals: shape plus value function. -/
structure Arr3 where
  s0 : ℕ
  s1 : ℕ
  s2 : ℕ
  val : ℕ → ℕ → ℕ → ℚ

/-- A 4-d numpy array of rationals: shape plus value function. -/
structure Arr4 where
  s0 : ℕ
  s1 : ℕ
  s2 : ℕ
  s3 : ℕ
  val : ℕ → ℕ → ℕ → ℕ → ℚ

/-- Size of a 4-d array along (already normalized) axis `ax`. -/
def size4 (A : Arr4) (ax : ℕ) : ℕ :=
  match ax with
  | 0 => A.s0
  | 1 => A.s1
  | 2 => A.s2
  | _ => A.s3

/-- Size of a 3-d array along (already normalized) axis `ax`. -/
def size3 (A : Arr3) (ax : ℕ) : ℕ :=
  match ax with
  | 0 => A.s0
  | 1 => A.s1
  | _ => A.s2

/-- numpy axis normalization for an `ndim`-dimensional array: a negative
axis has `ndim` added; an axis outside `[-ndim, ndim)` raises AxisError. -/
def npAxis (ndim : ℕ) (ax : ℤ) : Except ConcatError ℕ :=
  if 0 ≤ ax ∧ ax < (ndim : ℤ) then Except.ok ax.toNat
  else if ax < 0 ∧ 0 ≤ ax + (ndim : ℤ) then Except.ok (ax + (ndim : ℤ)).toNat
  else Except.error ConcatError.npRaised

/-- numpy/python index normalization for an axis of length `size`: a
negative index has `size` added; out of range raises IndexError. -/
def npIndex (size : ℕ) (idx : ℤ) : Except ConcatError ℕ :=
  if 0 ≤ idx ∧ idx < (size : ℤ) then Except.ok idx.toNat
  else if idx < 0 ∧ 0 ≤ idx + (size : ℤ) then Except.ok (idx + (size : ℤ)).toNat
  else Except.error ConcatError.npRaised

/-- Drop (already normalized) axis `ax` of a 4-d array, fixing it at
index `t`: the core of `np.take(A, indices=t, axis=ax)`. -/
def del4 (A : Arr4) (ax : ℕ) (t : ℕ) : Arr3 :=
  match ax with
  | 0 => ⟨A.s1, A.s2, A.s3, fun j k l => A.val t j k l⟩
  | 1 => ⟨A.s0, A.s2, A.s3, fun i k l => A.val i t k l⟩
  | 2 => ⟨A.s0, A.s1, A.s3, fun i j l => A.val i j t l⟩
  | _ => ⟨A.s0, A.s1, A.s2, fun i j k => A.val i j k t⟩

/-- Drop (already normalized) axis `ax` of a 3-d array, fixing it at `t`. -/
def del3 (A : Arr3) (ax : ℕ) (t : ℕ) : Arr2 :=
  match ax with
  | 0 => ⟨A.s1, A.s2, fun j k => A.val t j k⟩
  | 1 => ⟨A.s0, A.s2, fun i k => A.val i t k⟩
  | _ => ⟨A.s0, A.s1, fun i j => A.val i j t⟩

/-- `np.take(A, indices=idx, axis=ax)` on a 4-d array, with numpy's
axis and index normalization. -/
def take4E (A : Arr4) (idx : ℤ) (ax : ℤ) : Except ConcatError Arr3 :=
  match npAxis 4 ax with
  | Except.error e => Except.error e
  | Except.ok na =>
    match npIndex (size4 A na) idx with
    | Except.error e => Except.error e
    | Except.ok t => Except.ok (del4 A na t)

/-- `np.take(A, indices=idx, axis=ax)` on a 3-d array. -/
def take3E (A : Arr3) (idx : ℤ) (ax : ℤ) : Except ConcatError Arr2 :=
  match npAxis 3 ax with
  | Except.error e => Except.error e
  | Except.ok na =>
    match npIndex (size3 A na) idx with
    | Except.error e => Except.error e
    | Except.ok t => Except.ok (del3 A na t)

/-- Basic slice `0:-1` applied to axis `ax3` of a 4-d array (the
`slice_spec` built by the source: full slices except `slice(0, -1)` at the
concatenation axis).  The sliced axis loses its last entry. -/
def sliceInit4 (A : Arr4) (ax3 : ℕ) : Arr4 :=
  match ax3 with
  | 0 => ⟨A.s0 - 1, A.s1, A.s2, A.s3, A.val⟩
  | 1 => ⟨A.s0, A.s1 - 1, A.s2, A.s3, A.val⟩
  | _ => ⟨A.s0, A.s1, A.s2 - 1, A.s3, A.val⟩

/-- Basic slice `0:-1` applied to axis `ax3` of a 3-d array. -/
def sliceInit3 (A : Arr3) (ax3 : ℕ) : Arr3 :=
  match ax3 with
  | 0 => ⟨A.s0 - 1, A.s1, A.s2, A.val⟩
  | 1 => ⟨A.s0, A.s1 - 1, A.s2, A.val⟩
  | _ => ⟨A.s0, A.s1, A.s2 - 1, A.val⟩

/-- Shapes of two 4-d arrays agree on every axis except (normalized) `na`:
the shape condition `np.concatenate` checks. -/
def shapeOk4 (A B : Arr4) (na : ℕ) : Bool :=
  (na == 0 || A.s0 == B.s0) && (na == 1 || A.s1 == B.s1) &&
  (na == 2 || A.s2 == B.s2) && (na == 3 || A.s3 == B.s3)

/-- Shapes of two 3-d arrays agree on every axis except (normalized) `na`. -/
def shapeOk3 (A B : Arr3) (na : ℕ) : Bool :=
  (na == 0 || A.s0 == B.s0) && (na == 1 || A.s1 == B.s1) &&
  (na == 2 || A.s2 == B.s2)

/-- Join two 4-d arrays along (already normalized) axis `na`. -/
def cat4 (A B : Arr4) (na : ℕ) : Arr4 :=
  match na with
  | 0 => ⟨A.s0 + B.s0, A.s1, A.s2, A.s3,
      fun i j k l => if i < A.s0 then A.val i j k l else B.val (i - A.s0) j k l⟩
  | 1 => ⟨A.s0, A.s1 + B.s1, A.s2, A.s3,
      fun i j k l => if j < A.s1 then A.val i j k l else B.val i (j - A.s1) k l⟩
  | 2 => ⟨A.s0, A.s1, A.s2 + B.s2, A.s3,
      fun i j k l => if k < A.s2 then A.val i j k l else B.val i j (k - A.s2) l⟩
  | _ => ⟨A.s0, A.s1, A.s2, A.s3 + B.s3,
      fun i j k l => if l < A.s3 then A.val i j k l else B.val i j k (l - A.s3)⟩

/-- Join two 3-d arrays along (already normalized) axis `na`. -/
def cat3 (A B : Arr3) (na : ℕ) : Arr3 :=
  match na with
  | 0 => ⟨A.s0 + B.s0, A.s1, A.s2,
      fun i j k => if i < A.s0 then A.val i j k else B.val (i - A.s0) j k⟩
  | 1 => ⟨A.s0, A.s1 + B.s1, A.s2,
      fun i j k => if j < A.s1 then A.val i j k else B.val i (j - A.s1) k⟩
  | _ => ⟨A.s0, A.s1, A.s2 + B.s2,
      fun i j k => if k < A.s2 then A.val i j k else B.val i j (k - A.s2)⟩

/-- `np.concatenate((A, B), axis=ax)` for 4-d arrays: normalize the axis,
check that shapes agree away from it (else ValueError), then join. -/
def concat4E (A B : Arr4) (ax : ℤ) : Except ConcatError Arr4 :=
  match npAxis 4 ax with
  | Except.error e => Except.error e
  | Except.ok na =>
    if shapeOk4 A B na then Except.ok (cat4 A B na)
    else Except.error ConcatError.npRaised

/-- `np.concatenate((A, B), axis=ax)` for 3-d arrays. -/
def concat3E (A B : Arr3) (ax : ℤ) : Except ConcatError Arr3 :=
  match npAxis 3 ax with
  | Except.error e => Except.error e
  | Except.ok na =>
    if shapeOk3 A B na then Except.ok (cat3 A B na)
    else Except.error ConcatError.npRaised

/-- Absolute value on ℚ, kept as a plain definition so that concrete
instances evaluate by `decide`. -/
def ratAbs (q : ℚ) : ℚ := if q < 0 then -q else q

/-- numpy's default relative tolerance in `np.allclose`. -/
def npRtol : ℚ := 1 / 100000

/-- `np.allclose(A, B, atol=atol)` on 3-d arrays of equal shape:
every entry satisfies `|a - b| <= atol + rtol * |b|` with numpy's default
`rtol = 1e-5` (the source passes only `atol`). -/
def allclose3 (A B : Arr3) (atol : ℚ) : Bool :=
  A.s0 == B.s0 && A.s1 == B.s1 && A.s2 == B.s2 &&
  (List.range (A.s0 * A.s1 * A.s2)).all (fun p =>
    decide (ratAbs (A.val (p % A.s0) (p / A.s0 % A.s1) (p / (A.s0 * A.s1))
                    - B.val (p % A.s0) (p / A.s0 % A.s1) (p / (A.s0 * A.s1)))
            ≤ atol + npRtol * ratAbs (B.val (p % A.s0) (p / A.s0 % A.s1) (p / (A.s0 * A.s1)))))

/-- `np.array_equal(A, B)` on 2-d arrays: equal shapes and equal entries. -/
def arrayEqual2 (A B : Arr2) : Bool :=
  A.s0 == B.s0 && A.s1 == B.s1 &&
  (List.range (A.s0 * A.s1)).all (fun p =>
    decide (A.val (p % A.s0) (p / A.s0) = B.val (p % A.s0) (p / A.s0)))

/-- `ravel(order='F')` of a 3-d array: the flat column-major list. -/
def ravelF3 (A : Arr3) : List ℚ :=
  (List.range (A.s0 * A.s1 * A.s2)).map (fun p =>
    A.val (p % A.s0) (p / A.s0 % A.s1) (p / (A.s0 * A.s1)))

/-- Entry `q` of the column-major (`order='F'`) ravel of a 4-d array. -/
def ravel4At (A : Arr4) (q : ℕ) : ℚ :=
  A.val (q % A.s0) (q / A.s0 % A.s1) (q / (A.s0 * A.s1) % A.s2)
    (q / (A.s0 * A.s1 * A.s2))

/-- `new_points.reshape((-1, 3), order='F')`: the flat column-major ravel
refilled column-major into an `(n, 3)` list of points; raises ValueError
if the total size is not divisible by 3. -/
def reshapePtsE (A : Arr4) : Except ConcatError (List V3) :=
  if A.s0 * A.s1 * A.s2 * A.s3 % 3 == 0 then
    Except.ok ((List.range (A.s0 * A.s1 * A.s2 * A.s3 / 3)).map (fun p =>
      ⟨ravel4At A p, ravel4At A (p + A.s0 * A.s1 * A.s2 * A.s3 / 3),
        ravel4At A (p + 2 * (A.s0 * A.s1 * A.s2 * A.s3 / 3))⟩))
  else Except.error ConcatError.npRaised

/-- Modelled from the spec: `points_matrix` (not under `src/`) reshapes the
flat Fortran-ordered `(n, 3)` points into shape `(d0, d1, d2, 3)`, so entry
`(i, j, k, l)` is coordinate `l` of the point at flat index
`i + d0*(j + d1*k)`. -/
def points_matrix (g : Grid) : Arr4 :=
  ⟨g.dims.1, g.dims.2.1, g.dims.2.2, 3,
    fun i j k l => V3.comp (g.points.getD (rank3 g.dims i j k) ⟨0, 0, 0⟩) l⟩

/-- Modelled from the spec: `_reshape_point_array` (not under `src/`)
reshapes a flat per-point array into the `(d0, d1, d2)` lattice shape with
`order='F'`. -/
def reshapePointArray (d : Dims) (arr : List ℚ) : Arr3 :=
  ⟨d.1, d.2.1, d.2.2, fun i j k => arr.getD (rank3 d i j k) 0⟩

/-- Cell count along an axis with `n` points: `n - 1`, except that a
degenerate axis contributes 1 (spec §3). -/
def cellDim (n : ℕ) : ℕ := if n ≤ 1 then 1 else n - 1

/-- Cell-lattice dimensions of a grid with point dimensions `d`. -/
def cellDims (d : Dims) : Dims := (cellDim d.1, cellDim d.2.1, cellDim d.2.2)

/-- Modelled from the spec: `_reshape_cell_array` (not under `src/`)
reshapes a flat per-cell array into the cell-lattice shape with
`order='F'`. -/
def reshapeCellArray (d : Dims) (arr : List ℚ) : Arr3 :=
  reshapePointArray (cellDims d) arr

/-- Names of a data-array dictionary (`dict.keys()`). -/
def namesOf (l : List (String × List ℚ)) : List String := l.map Prod.fst

/-- Python `set(a) == set(b)` on name lists. -/
def setEqB (a b : List String) : Bool :=
  a.all (fun x => b.contains x) && b.all (fun x => a.contains x)

/-- Python dict lookup `d[name]` on an association list (names are unique
in a dict; on a duplicated name the first binding wins). -/
def lookupArr : List (String × List ℚ) → String → List ℚ
  | [], _ => []
  | (n, a) :: rest, name => if n == name then a else lookupArr rest name

/-- The dimension-compatibility loop of the source (lines 188-195): some
axis `i` in `{0,1,2}` other than the concatenation axis has differing
dimensions. -/
def dimsIncompat (d d' : Dims) (axis : ℤ) : Bool :=
  (List.range 3).any (fun i =>
    !((i : ℤ) == axis) && !(getAt3 d i == getAt3 d' i))

/-- Python list indexing into a length-3 list (`slice_spec[axis]`,
`new_dims[axis]`, `other.dimensions[axis]`): negative indices have 3
added; out of range raises IndexError. -/
def pyIdx3 (axis : ℤ) : Except ConcatError ℕ :=
  if 0 ≤ axis ∧ axis < 3 then Except.ok axis.toNat
  else if axis < 0 ∧ 0 ≤ axis + 3 then Except.ok (axis + 3).toNat
  else Except.error ConcatError.npRaised

/-- The per-point-field loop of the source (lines 222-232): for each named
point array of `base` (in order), reshape both sides, check the seam
values are identical (`np.array_equal` of the two seam layers, else raise),
then concatenate with the duplicate layer of `base` cut off and ravel
column-major. -/
def concatPointArraysE (base other : Grid) (axis : ℤ) (ax3 : ℕ) :
    List (String × List ℚ) → Except ConcatError (List (String × List ℚ))
  | [] => Except.ok []
  | (name, arr) :: rest =>
    let a1 := reshapePointArray base.dims arr
    let a2 := reshapePointArray other.dims (lookupArr other.point_arrays name)
    match take3E a1 (-1) axis with
    | Except.error e => Except.error e
    | Except.ok l1 =>
      match take3E a2 0 axis with
      | Except.error e => Except.error e
      | Except.ok l2 =>
        if arrayEqual2 l1 l2 then
          match concat3E (sliceInit3 a1 ax3) a2 axis with
          | Except.error e => Except.error e
          | Except.ok cc =>
            match concatPointArraysE base other axis ax3 rest with
            | Except.error e => Except.error e
            | Except.ok rest' => Except.ok ((name, ravelF3 cc) :: rest')
        else Except.error (ConcatError.seamFieldMismatch axis name)

/-- The per-cell-field loop of the source (lines 238-243): for each named
cell array of `base`, reshape both sides to the cell lattice, concatenate
along the axis with no deduplication and no seam check, ravel column-major. -/
def concatCellArraysE (base other : Grid) (axis : ℤ) :
    List (String × List ℚ) → Except ConcatError (List (String × List ℚ))
  | [] => Except.ok []
  | (name, arr) :: rest =>
    match concat3E (reshapeCellArray base.dims arr)
        (reshapeCellArray other.dims (lookupArr other.cell_arrays name)) axis with
    | Except.error e => Except.error e
    | Except.ok cc =>
      match concatCellArraysE base other axis rest with
      | Except.error e => Except.error e
      | Except.ok rest' => Except.ok ((name, ravelF3 cc) :: rest')

/-- `StructuredGridFilters.concatenate(dataset, other, axis, tolerance)`
(source lines 146-252), step for step:
axis guard (`axis > 2`), dimension-compatibility loop, point-array and
cell-array name-set checks, seam coincidence check
(`np.allclose(take(base, -1, axis), take(other, 0, axis), atol=tolerance)`),
then construction: points with the duplicated layer of `base` sliced off
and concatenated, point arrays with per-field seam-equality checks,
`new_dims[axis] += other.dimensions[axis] - 1`, cell arrays concatenated
without deduplication, and a fresh output grid carrying no field arrays. -/
def concatenate (base other : Grid) (axis : ℤ) (tolerance : ℚ) :
    Except ConcatError Grid :=
  if 2 < axis then Except.error ConcatError.invalidAxis
  else if dimsIncompat base.dims other.dims axis then
    Except.error (ConcatError.dimensionMismatch base.dims other.dims)
  else if !(setEqB (namesOf base.point_arrays) (namesOf other.point_arrays)) then
    Except.error ConcatError.pointFieldNameMismatch
  else if !(setEqB (namesOf base.cell_arrays) (namesOf other.cell_arrays)) then
    Except.error ConcatError.cellFieldNameMismatch
  else
    match take4E (points_matrix base) (-1) axis with
    | Except.error e => Except.error e
    | Except.ok seam1 =>
      match take4E (points_matrix other) 0 axis with
      | Except.error e => Except.error e
      | Except.ok seam2 =>
        if allclose3 seam1 seam2 tolerance then
          match pyIdx3 axis with
          | Except.error e => Except.error e
          | Except.ok ax3 =>
            match concat4E (sliceInit4 (points_matrix base) ax3)
                (points_matrix other) axis with
            | Except.error e => Except.error e
            | Except.ok newPoints =>
              match concatPointArraysE base other axis ax3 base.point_arrays with
              | Except.error e => Except.error e
              | Except.ok newPointData =>
                match concatCellArraysE base other axis base.cell_arrays with
                | Except.error e => Except.error e
                | Except.ok newCellData =>
                  match reshapePtsE newPoints with
                  | Except.error e => Except.error e
                  | Except.ok pts =>
                    Except.ok { dims := setAt3 base.dims ax3
                                  (getAt3 base.dims ax3 + getAt3 other.dims ax3 - 1),
                                points := pts,
                                point_arrays := newPointData,
                                cell_arrays := newCellData,
                                field_arrays := [] }
        else Except.error (ConcatError.seamMismatch axis tolerance)

/-- Well-formedness of a grid per the spec's data model (§3): positive
dimensions, `len(points) == d0*d1*d2`, every point array with one value per
point, every cell array with one value per cell, and (as for python dicts)
no duplicated array names. -/
def WF (g : Grid) : Prop :=
  0 < g.dims.1 ∧ 0 < g.dims.2.1 ∧ 0 < g.dims.2.2 ∧
  g.points.length = prodDims g.dims ∧
  (∀ pa ∈ g.point_arrays, (Prod.snd pa).length = prodDims g.dims) ∧
  (∀ ca ∈ g.cell_arrays, (Prod.snd ca).length = prodDims (cellDims g.dims)) ∧
  (namesOf g.point_arrays).Nodup ∧ (namesOf g.cell_arrays).Nodup

instance (g : Grid) : Decidable (WF g) := by
  unfold WF; infer_instance

/-- The error kinds named by the spec (§7); numpy's own exceptions are not
among them. -/
def SpecifiedError : ConcatError → Prop
  | ConcatError.npRaised => False
  | _ => True

/-- `true` exactly on a successful result. -/
def exOk (r : Except ConcatError Grid) : Bool :=
  match r with
  | Except.ok _ => true
  | Except.error _ => false

/-- The error of a failed result, if any. -/
def errorOf (r : Except ConcatError Grid) : Option ConcatError :=
  match r with
  | Except.ok _ => none
  | Except.error e => some e

/-- A copy of a grid with its field-level (non-point, non-cell) data
arrays replaced. -/
def withFieldArrays (G : Grid) (fs : List (String × List ℚ)) : Grid :=
  Grid.mk G.dims G.points G.point_arrays G.cell_arrays fs

/-! ### Index arithmetic for column-major ranking -/

theorem rank2_lt {a b i j : ℕ} (hi : i < a) (hj : j < b) : i + a * j < a * b :=
  calc i + a * j < a + a * j := Nat.add_lt_add_right hi (a * j)
    _ = a * (j + 1) := by ring
    _ ≤ a * b := Nat.mul_le_mul_left a hj

theorem rank3_lt {d : Dims} {i j k : ℕ} (hi : i < d.1) (hj : j < d.2.1)
    (hk : k < d.2.2) : rank3 d i j k < prodDims d := by
  have h1 : j + d.2.1 * k < d.2.1 * d.2.2 := rank2_lt hj hk
  have h2 : i + d.1 * (j + d.2.1 * k) < d.1 * (d.2.1 * d.2.2) := rank2_lt hi h1
  unfold rank3 prodDims
  calc i + d.1 * (j + d.2.1 * k) < d.1 * (d.2.1 * d.2.2) := h2
    _ = d.1 * d.2.1 * d.2.2 := by ring

theorem rank3_mod0 {d : Dims} {i : ℕ} (j k : ℕ) (hi : i < d.1) :
    rank3 d i j k % d.1 = i := by
  unfold rank3
  rw [Nat.add_mul_mod_self_left, Nat.mod_eq_of_lt hi]

theorem rank3_div1 {d : Dims} {i j : ℕ} (k : ℕ) (hi : i < d.1)
    (hj : j < d.2.1) : rank3 d i j k / d.1 % d.2.1 = j := by
  have h0 : 0 < d.1 := lt_of_le_of_lt (Nat.zero_le i) hi
  unfold rank3
  rw [Nat.add_mul_div_left _ _ h0, Nat.div_eq_of_lt hi, Nat.zero_add,
    Nat.add_mul_mod_self_left, Nat.mod_eq_of_lt hj]

theorem rank3_div2 {d : Dims} {i j k : ℕ} (hi : i < d.1) (hj : j < d.2.1) :
    rank3 d i j k / (d.1 * d.2.1) = k := by
  have h0 : 0 < d.1 := lt_of_le_of_lt (Nat.zero_le i) hi
  have h1 : 0 < d.2.1 := lt_of_le_of_lt (Nat.zero_le j) hj
  unfold rank3
  rw [← Nat.div_div_eq_div_mul, Nat.add_mul_div_left _ _ h0,
    Nat.div_eq_of_lt hi, Nat.zero_add, Nat.add_mul_div_left _ _ h1,
    Nat.div_eq_of_lt hj, Nat.zero_add]

theorem pos_of_prod3_pos {a b c : ℕ} (h : 0 < a * b * c) :
    0 < a ∧ 0 < b ∧ 0 < c := by
  refine ⟨?_, ?_, ?_⟩
  · rcases Nat.eq_zero_or_pos a with h0 | h0
    · rw [h0] at h; simp at h
    · exact h0
  · rcases Nat.eq_zero_or_pos b with h0 | h0
    · rw [h0] at h; simp at h
    · exact h0
  · rcases Nat.eq_zero_or_pos c with h0 | h0
    · rw [h0] at h; simp at h
    · exact h0

theorem unrank0_lt {a b c p : ℕ} (hp : p < a * b * c) : p % a < a :=
  Nat.mod_lt p (pos_of_prod3_pos (lt_of_le_of_lt (Nat.zero_le p) hp)).1

theorem unrank1_lt {a b c p : ℕ} (hp : p < a * b * c) : p / a % b < b :=
  Nat.mod_lt _ (pos_of_prod3_pos (lt_of_le_of_lt (Nat.zero_le p) hp)).2.1

theorem unrank2_lt {a b c p : ℕ} (hp : p < a * b * c) : p / (a * b) < c := by
  obtain ⟨h0, h1, h2⟩ := pos_of_prod3_pos (lt_of_le_of_lt (Nat.zero_le p) hp)
  rw [Nat.div_lt_iff_lt_mul (Nat.mul_pos h0 h1)]
  calc p < a * b * c := hp
    _ = c * (a * b) := by ring

theorem rank3_unrank {d : Dims} {p : ℕ} :
    rank3 d (p % d.1) (p / d.1 % d.2.1) (p / (d.1 * d.2.1)) = p := by
  unfold rank3
  rw [← Nat.div_div_eq_div_mul, Nat.mod_add_div, Nat.mod_add_div]

theorem getD_range_map {α : Type} {n q : ℕ} (f : ℕ → α) (v : α) (h : q < n) :
    ((List.range n).map f).getD q v = f q := by
  rw [List.getD_eq_getElem?_getD, List.getElem?_map, List.getElem?_range h]
  rfl

/-! ### Quantifier normal forms for the range-enumerated checks -/

theorem forall_range2_iff {a b : ℕ} (P : ℕ → ℕ → Prop) :
    (∀ p, p < a * b → P (p % a) (p / a)) ↔
      ∀ x, x < a → ∀ y, y < b → P x y := by
  constructor
  · intro h x hx y hy
    have hp : x + a * y < a * b := rank2_lt hx hy
    have := h (x + a * y) hp
    rwa [Nat.add_mul_mod_self_left, Nat.mod_eq_of_lt hx,
      Nat.add_mul_div_left _ _ (lt_of_le_of_lt (Nat.zero_le x) hx),
      Nat.div_eq_of_lt hx, Nat.zero_add] at this
  · intro h p hp
    have h0 : 0 < a := by
      rcases Nat.eq_zero_or_pos a with h0 | h0
      · rw [h0] at hp; simp at hp
      · exact h0
    have h1 : p / a < b := by
      rw [Nat.div_lt_iff_lt_mul h0]
      calc p < a * b := hp
        _ = b * a := by ring
    exact h (p % a) (Nat.mod_lt p h0) (p / a) h1

theorem forall_range3_iff {a b c : ℕ} (P : ℕ → ℕ → ℕ → Prop) :
    (∀ p, p < a * b * c → P (p % a) (p / a % b) (p / (a * b))) ↔
      ∀ x, x < a → ∀ y, y < b → ∀ z, z < c → P x y z := by
  constructor
  · intro h x hx y hy z hz
    have hp : rank3 (a, b, c) x y z < a * b * c := rank3_lt hx hy hz
    have := h _ hp
    rwa [rank3_mod0 _ _ hx, rank3_div1 _ hx hy, rank3_div2 hx hy] at this
  · intro h p hp
    exact h _ (unrank0_lt hp) _ (unrank1_lt hp) _ (unrank2_lt hp)

theorem allclose3_iff {A B : Arr3} (h0 : A.s0 = B.s0) (h1 : A.s1 = B.s1)
    (h2 : A.s2 = B.s2) (atol : ℚ) :
    allclose3 A B atol = true ↔
      ∀ x, x < A.s0 → ∀ y, y < A.s1 → ∀ z, z < A.s2 →
        ratAbs (A.val x y z - B.val x y z)
          ≤ atol + npRtol * ratAbs (B.val x y z) := by
  unfold allclose3
  rw [← forall_range3_iff (a := A.s0) (b := A.s1) (c := A.s2)]
  simp [h0, h1, h2, List.all_eq_true, List.mem_range]

theorem arrayEqual2_iff {A B : Arr2} (h0 : A.s0 = B.s0) (h1 : A.s1 = B.s1) :
    arrayEqual2 A B = true ↔
      ∀ x, x < A.s0 → ∀ y, y < A.s1 → A.val x y = B.val x y := by
  unfold arrayEqual2
  rw [← forall_range2_iff (a := A.s0) (b := A.s1)]
  simp [h0, h1, List.all_eq_true, List.mem_range]

/-! ### Evaluation of the numpy helpers on valid inputs -/

theorem npAxis_natCast {n a : ℕ} (h : a < n) : npAxis n (a : ℤ) = Except.ok a := by
  unfold npAxis
  rw [if_pos (by omega : 0 ≤ (a : ℤ) ∧ (a : ℤ) < (n : ℤ))]
  simp

theorem npIndex_neg1 {size : ℕ} (h : 0 < size) :
    npIndex size (-1) = Except.ok (size - 1) := by
  unfold npIndex
  rw [if_neg (by omega), if_pos (by omega)]
  have : ((-1 : ℤ) + (size : ℤ)).toNat = size - 1 := by omega
  rw [this]

theorem npIndex_zero {size : ℕ} (h : 0 < size) :
    npIndex size 0 = Except.ok 0 := by
  unfold npIndex
  rw [if_pos (by omega : 0 ≤ (0 : ℤ) ∧ (0 : ℤ) < (size : ℤ))]
  rfl

theorem pyIdx3_natCast {a : ℕ} (h : a < 3) : pyIdx3 (a : ℤ) = Except.ok a := by
  unfold pyIdx3
  rw [if_pos (by omega : 0 ≤ (a : ℤ) ∧ (a : ℤ) < 3)]
  simp

theorem take4E_last {A : Arr4} {a : ℕ} (ha : a < 4) (h : 0 < size4 A a) :
    take4E A (-1) (a : ℤ) = Except.ok (del4 A a (size4 A a - 1)) := by
  simp only [take4E, npAxis_natCast ha, npIndex_neg1 h]

theorem take4E_first {A : Arr4} {a : ℕ} (ha : a < 4) (h : 0 < size4 A a) :
    take4E A 0 (a : ℤ) = Except.ok (del4 A a 0) := by
  simp only [take4E, npAxis_natCast ha, npIndex_zero h]

theorem take3E_last {A : Arr3} {a : ℕ} (ha : a < 3) (h : 0 < size3 A a) :
    take3E A (-1) (a : ℤ) = Except.ok (del3 A a (size3 A a - 1)) := by
  simp only [take3E, npAxis_natCast ha, npIndex_neg1 h]

theorem take3E_first {A : Arr3} {a : ℕ} (ha : a < 3) (h : 0 < size3 A a) :
    take3E A 0 (a : ℤ) = Except.ok (del3 A a 0) := by
  simp only [take3E, npAxis_natCast ha, npIndex_zero h]

theorem concat4E_eval {A B : Arr4} {a : ℕ} (ha : a < 4)
    (h : shapeOk4 A B a = true) :
    concat4E A B (a : ℤ) = Except.ok (cat4 A B a) := by
  simp only [concat4E, npAxis_natCast ha, h, if_true]

theorem concat3E_eval {A B : Arr3} {a : ℕ} (ha : a < 3)
    (h : shapeOk3 A B a = true) :
    concat3E A B (a : ℤ) = Except.ok (cat3 A B a) := by
  simp only [concat3E, npAxis_natCast ha, h, if_true]

/-! ### Structural helper lemmas -/

theorem getAt3_setAt3_self {d : Dims} {v a : ℕ} (ha : a < 3) :
    getAt3 (setAt3 d a v) a = v := by
  interval_cases a <;> rfl

theorem getAt3_setAt3_ne {d : Dims} {v a i : ℕ} (ha : a < 3) (hi : i < 3)
    (hne : i ≠ a) : getAt3 (setAt3 d a v) i = getAt3 d i := by
  interval_cases a <;> interval_cases i <;> first | rfl | exact absurd rfl hne

theorem dimsIncompat_iff {d d' : Dims} {axis : ℤ} :
    dimsIncompat d d' axis = true ↔
      ∃ i : ℕ, i < 3 ∧ (i : ℤ) ≠ axis ∧ getAt3 d i ≠ getAt3 d' i := by
  unfold dimsIncompat
  simp [List.any_eq_true, List.mem_range, and_assoc]

theorem size4_points_matrix {g : Grid} {a : ℕ} (ha : a < 3) :
    size4 (points_matrix g) a = getAt3 g.dims a := by
  interval_cases a <;> rfl

/-- Eliminate a successful run of `concatenate`: every stage succeeded and
the output grid is the assembled record. -/
theorem concatenate_ok_elim {base other : Grid} {axis : ℤ} {tol : ℚ} {J : Grid}
    (hok : concatenate base other axis tol = Except.ok J) :
    ∃ ax3 newPoints newPointData newCellData pts,
      pyIdx3 axis = Except.ok ax3 ∧
      concat4E (sliceInit4 (points_matrix base) ax3) (points_matrix other) axis
        = Except.ok newPoints ∧
      concatPointArraysE base other axis ax3 base.point_arrays
        = Except.ok newPointData ∧
      concatCellArraysE base other axis base.cell_arrays = Except.ok newCellData ∧
      reshapePtsE newPoints = Except.ok pts ∧
      J = { dims := setAt3 base.dims ax3
              (getAt3 base.dims ax3 + getAt3 other.dims ax3 - 1),
            points := pts, point_arrays := newPointData,
            cell_arrays := newCellData, field_arrays := [] } := by
  unfold concatenate at hok
  split at hok
  · exact Except.noConfusion hok
  split at hok
  · exact Except.noConfusion hok
  split at hok
  · exact Except.noConfusion hok
  split at hok
  · exact Except.noConfusion hok
  split at hok
  · exact Except.noConfusion hok
  rename_i seam1 hseam1
  split at hok
  · exact Except.noConfusion hok
  rename_i seam2 hseam2
  split at hok
  case isFalse => exact Except.noConfusion hok
  split at hok
  · exact Except.noConfusion hok
  rename_i ax3 hax3
  split at hok
  · exact Except.noConfusion hok
  rename_i newPoints hnp
  split at hok
  · exact Except.noConfusion hok
  rename_i npd hnpd
  split at hok
  · exact Except.noConfusion hok
  rename_i ncd hncd
  split at hok
  · exact Except.noConfusion hok
  rename_i pts hpts
  injection hok with hJ
  exact ⟨ax3, newPoints, npd, ncd, pts, hax3, hnp, hnpd, hncd, hpts, hJ.symm⟩

/-! ### Concrete grids used as witnesses and counterexamples -/

/-- The 2x2x1 grid of the spec's §8 concrete scenario. -/
def exA : Grid :=
  ⟨(2, 2, 1), [⟨0, 0, 0⟩, ⟨1, 0, 0⟩, ⟨0, 1, 0⟩, ⟨1, 1, 0⟩], [], [], []⟩

/-- The same grid shifted by 1 along x (spec §8). -/
def exB : Grid :=
  ⟨(2, 2, 1), [⟨1, 0, 0⟩, ⟨2, 0, 0⟩, ⟨1, 1, 0⟩, ⟨2, 1, 0⟩], [], [], []⟩

/-- The expected 3x2x1 result of joining `exA` and `exB` along axis 0. -/
def exJ : Grid :=
  ⟨(3, 2, 1),
    [⟨0, 0, 0⟩, ⟨1, 0, 0⟩, ⟨2, 0, 0⟩, ⟨0, 1, 0⟩, ⟨1, 1, 0⟩, ⟨2, 1, 0⟩],
    [], [], []⟩

/-- A 1x1x1 grid whose single x-coordinate is 1000005. -/
def cxA : Grid := ⟨(1, 1, 1), [⟨1000005, 0, 0⟩], [], [], []⟩

/-- A 1x1x1 grid whose single x-coordinate is 1000000. -/
def cxB : Grid := ⟨(1, 1, 1), [⟨1000000, 0, 0⟩], [], [], []⟩

/-- A 1x1x1 grid whose single point is (0, 0, 5). -/
def gNeg : Grid := ⟨(1, 1, 1), [⟨0, 0, 5⟩], [], [], []⟩

/-- A well-formed grid degenerate (size 1) along axis 0: a single x = 0
layer of a 2x2 lattice, with one cell array sized to its one cell. -/
def dgA : Grid :=
  ⟨(1, 2, 2),
    [⟨0, 0, 0⟩, ⟨0, 1, 0⟩, ⟨0, 0, 1⟩, ⟨0, 1, 1⟩],
    [], [("c", [10])], []⟩

/-- A well-formed 2x2x2 grid whose first layer along axis 0 coincides
with `dgA`'s layer, with one cell array sized to its one cell. -/
def dgB : Grid :=
  ⟨(2, 2, 2),
    [⟨0, 0, 0⟩, ⟨1, 0, 0⟩, ⟨0, 1, 0⟩, ⟨1, 1, 0⟩,
      ⟨0, 0, 1⟩, ⟨1, 0, 1⟩, ⟨0, 1, 1⟩, ⟨1, 1, 1⟩],
    [], [("c", [20])], []⟩

/-- What `concatenate dgA dgB 0 0` returns: a 2x2x2 grid — one cell —
whose cell array holds two values. -/
def dgJ : Grid :=
  ⟨(2, 2, 2),
    [⟨0, 0, 0⟩, ⟨1, 0, 0⟩, ⟨0, 1, 0⟩, ⟨1, 1, 0⟩,
      ⟨0, 0, 1⟩, ⟨1, 0, 1⟩, ⟨0, 1, 1⟩, ⟨1, 1, 1⟩],
    [], [("c", [10, 20])], []⟩

/-- A 1x1x1 grid whose single point is (5, 0, 5). -/
def g55 : Grid := ⟨(1, 1, 1), [⟨5, 0, 5⟩], [], [], []⟩

/-- A 1x1x1 grid carrying one point array named "a". -/
def cx6A : Grid := ⟨(1, 1, 1), [⟨0, 0, 0⟩], [("a", [0])], [], []⟩

/-- A 1x2x1 grid carrying no data arrays. -/
def cx6B : Grid := ⟨(1, 2, 1), [⟨0, 0, 0⟩, ⟨0, 1, 0⟩], [], [], []⟩

/-- A 1x1x1 grid carrying no data arrays. -/
def cx6C : Grid := ⟨(1, 1, 1), [⟨0, 0, 0⟩], [], [], []⟩

/-! ### C1: output dimensions on success -/

/-- C1: whenever `concatenate(base, other, axis, tolerance)` succeeds for an
axis in `{0, 1, 2}`, the output dimension along that axis is
`base.dimensions[axis] + other.dimensions[axis] - 1` and the dimensions
along the two other axes equal `base`'s. -/
theorem c1_concatenate_dims {base other J : Grid} {tol : ℚ} (a : ℕ)
    (ha : a < 3) (hok : concatenate base other (a : ℤ) tol = Except.ok J) :
    getAt3 J.dims a = getAt3 base.dims a + getAt3 other.dims a - 1 ∧
      ∀ i, i < 3 → i ≠ a → getAt3 J.dims i = getAt3 base.dims i := by
  obtain ⟨ax3, _, _, _, _, hpy, _, _, _, _, hJ⟩ := concatenate_ok_elim hok
  rw [pyIdx3_natCast ha] at hpy
  injection hpy with hax
  subst hax
  rw [hJ]
  refine ⟨getAt3_setAt3_self ha, fun i hi hne => getAt3_setAt3_ne ha hi hne⟩

/-- Witness for C1 on the spec's §8 scenario. -/
theorem c1_concatenate_dims_witness :
    ((0 : ℕ) < 3 ∧ concatenate exA exB ((0 : ℕ) : ℤ) 0 = Except.ok exJ) ∧
      (getAt3 exJ.dims 0 = getAt3 exA.dims 0 + getAt3 exB.dims 0 - 1 ∧
        ∀ i, i < 3 → i ≠ 0 → getAt3 exJ.dims i = getAt3 exA.dims i) :=
  ⟨⟨by decide, by with_unfolding_all rfl⟩,
    @c1_concatenate_dims exA exB exJ 0 0 (by decide) (by with_unfolding_all rfl)⟩

/-! ### C4: the axis guard -/

/-- C4 (amended): any axis greater than 2 signals the invalid-axis error;
the guard of the source is `axis > 2` only, so negative axes are not
rejected by it (see the counterexample). -/
theorem c4_axis_guard (base other : Grid) (axis : ℤ) (tol : ℚ)
    (h : 2 < axis) :
    concatenate base other axis tol = Except.error ConcatError.invalidAxis := by
  unfold concatenate
  rw [if_pos h]

/-- Witness for the amended C4 at axis 3. -/
theorem c4_axis_guard_witness :
    (2 : ℤ) < 3 ∧ concatenate exA exA 3 0 = Except.error ConcatError.invalidAxis :=
  ⟨by decide, c4_axis_guard exA exA 3 0 (by decide)⟩

/-- C4 counterexample: at the negative axis `-1` (a value outside
`{0, 1, 2}`), `concatenate` does not signal the invalid-axis error: on
these grids it signals a seam mismatch instead. -/
theorem c4_counterexample :
    errorOf (concatenate gNeg gNeg (-1) 0)
        = some (ConcatError.seamMismatch (-1) 0) ∧
      (-1 : ℤ) < 0 ∧
      ConcatError.seamMismatch (-1) 0 ≠ ConcatError.invalidAxis := by
  refine ⟨by with_unfolding_all decide, by decide, by decide⟩

/-! ### C5: dimension mismatch off the concatenation axis -/

/-- C5: for a valid axis, whenever the dimensions differ along some other
axis, `concatenate` signals the dimension-mismatch error carrying both
dimension triples. -/
theorem c5_dim_mismatch (base other : Grid) (a : ℕ) (tol : ℚ) (ha : a < 3)
    (h : ∃ i, i < 3 ∧ i ≠ a ∧ getAt3 base.dims i ≠ getAt3 other.dims i) :
    concatenate base other (a : ℤ) tol
      = Except.error (ConcatError.dimensionMismatch base.dims other.dims) := by
  unfold concatenate
  rw [if_neg (by omega : ¬ (2 : ℤ) < (a : ℤ))]
  have hdt : dimsIncompat base.dims other.dims (a : ℤ) = true := by
    rw [dimsIncompat_iff]
    obtain ⟨i, hi, hne, hd⟩ := h
    exact ⟨i, hi, by omega, hd⟩
  rw [hdt]
  rfl

/-- Witness for C5: dimensions (1,1,1) vs (1,2,1) along axis 0. -/
theorem c5_dim_mismatch_witness :
    ((0 : ℕ) < 3 ∧
        ∃ i, i < 3 ∧ i ≠ 0 ∧ getAt3 cx6C.dims i ≠ getAt3 cx6B.dims i) ∧
      concatenate cx6C cx6B ((0 : ℕ) : ℤ) 0
        = Except.error (ConcatError.dimensionMismatch cx6C.dims cx6B.dims) :=
  ⟨⟨by decide, ⟨1, by decide, by decide, by decide⟩⟩,
    c5_dim_mismatch cx6C cx6B 0 0 (by decide) ⟨1, by decide, by decide, by decide⟩⟩

/-! ### C6: point-field name check -/

/-- C6 (amended): for grids that pass the axis and dimension checks,
differing point-field name sets always signal the point-field
name-mismatch error, regardless of any point coordinates — in particular
before any seam comparison is performed. -/
theorem c6_point_name_mismatch (base other : Grid) (a : ℕ) (tol : ℚ)
    (ha : a < 3)
    (hdims : ∀ i, i < 3 → i ≠ a → getAt3 base.dims i = getAt3 other.dims i)
    (hnames : setEqB (namesOf base.point_arrays) (namesOf other.point_arrays)
        = false) :
    concatenate base other (a : ℤ) tol
      = Except.error ConcatError.pointFieldNameMismatch := by
  unfold concatenate
  rw [if_neg (by omega : ¬ (2 : ℤ) < (a : ℤ))]
  have hdf : dimsIncompat base.dims other.dims (a : ℤ) = false := by
    rw [Bool.eq_false_iff]
    intro hc
    rw [dimsIncompat_iff] at hc
    obtain ⟨i, hi, hne, hd⟩ := hc
    exact hd (hdims i hi (by omega))
  rw [hdf, hnames]
  rfl

/-- Witness for the amended C6: same dimensions, point-array names
`{"a"}` vs `{}`. -/
theorem c6_point_name_mismatch_witness :
    ((0 : ℕ) < 3 ∧
        (∀ i, i < 3 → i ≠ 0 → getAt3 cx6A.dims i = getAt3 cx6C.dims i) ∧
        setEqB (namesOf cx6A.point_arrays) (namesOf cx6C.point_arrays) = false) ∧
      concatenate cx6A cx6C ((0 : ℕ) : ℤ) 0
        = Except.error ConcatError.pointFieldNameMismatch :=
  ⟨⟨by decide, by decide, by decide⟩,
    c6_point_name_mismatch cx6A cx6C 0 0 (by decide) (by decide) (by decide)⟩

/-- C6 counterexample: grids whose point-field name sets differ but whose
dimensions also mismatch signal the dimension-mismatch error, not the
field-name-mismatch error — the field-name check does not come first. -/
theorem c6_counterexample :
    setEqB (namesOf cx6A.point_arrays) (namesOf cx6B.point_arrays) = false ∧
      errorOf (concatenate cx6A cx6B 0 0)
        = some (ConcatError.dimensionMismatch (1, 1, 1) (1, 2, 1)) ∧
      ConcatError.dimensionMismatch (1, 1, 1) (1, 2, 1)
        ≠ ConcatError.pointFieldNameMismatch := by
  refine ⟨by decide, by with_unfolding_all decide, by decide⟩

/-! ### Error classification of the numpy stages -/

theorem npAxis_error {n : ℕ} {ax : ℤ} {e : ConcatError}
    (h : npAxis n ax = Except.error e) : e = ConcatError.npRaised := by
  unfold npAxis at h
  split at h
  · exact Except.noConfusion h
  split at h
  · exact Except.noConfusion h
  · injection h with h'
    exact h'.symm

theorem npIndex_error {n : ℕ} {idx : ℤ} {e : ConcatError}
    (h : npIndex n idx = Except.error e) : e = ConcatError.npRaised := by
  unfold npIndex at h
  split at h
  · exact Except.noConfusion h
  split at h
  · exact Except.noConfusion h
  · injection h with h'
    exact h'.symm

theorem pyIdx3_error {ax : ℤ} {e : ConcatError}
    (h : pyIdx3 ax = Except.error e) : e = ConcatError.npRaised := by
  unfold pyIdx3 at h
  split at h
  · exact Except.noConfusion h
  split at h
  · exact Except.noConfusion h
  · injection h with h'
    exact h'.symm

theorem take4E_error {A : Arr4} {idx ax : ℤ} {e : ConcatError}
    (h : take4E A idx ax = Except.error e) : e = ConcatError.npRaised := by
  unfold take4E at h
  split at h
  · rename_i e1 he1
    injection h with h'
    subst h'
    exact npAxis_error he1
  · rename_i na hna
    split at h
    · rename_i e1 he1
      injection h with h'
      subst h'
      exact npIndex_error he1
    · exact Except.noConfusion h

theorem take3E_error {A : Arr3} {idx ax : ℤ} {e : ConcatError}
    (h : take3E A idx ax = Except.error e) : e = ConcatError.npRaised := by
  unfold take3E at h
  split at h
  · rename_i e1 he1
    injection h with h'
    subst h'
    exact npAxis_error he1
  · rename_i na hna
    split at h
    · rename_i e1 he1
      injection h with h'
      subst h'
      exact npIndex_error he1
    · exact Except.noConfusion h

theorem concat4E_error {A B : Arr4} {ax : ℤ} {e : ConcatError}
    (h : concat4E A B ax = Except.error e) : e = ConcatError.npRaised := by
  unfold concat4E at h
  split at h
  · rename_i e1 he1
    injection h with h'
    subst h'
    exact npAxis_error he1
  · split at h
    · exact Except.noConfusion h
    · injection h with h'
      exact h'.symm

theorem concat3E_error {A B : Arr3} {ax : ℤ} {e : ConcatError}
    (h : concat3E A B ax = Except.error e) : e = ConcatError.npRaised := by
  unfold concat3E at h
  split at h
  · rename_i e1 he1
    injection h with h'
    subst h'
    exact npAxis_error he1
  · split at h
    · exact Except.noConfusion h
    · injection h with h'
      exact h'.symm

theorem reshapePtsE_error {A : Arr4} {e : ConcatError}
    (h : reshapePtsE A = Except.error e) : e = ConcatError.npRaised := by
  simp only [reshapePtsE] at h
  split at h
  · exact Except.noConfusion h
  · injection h with h'
    exact h'.symm

theorem concatPointArraysE_error {base other : Grid} {axis : ℤ} {ax3 : ℕ}
    {l : List (String × List ℚ)} {e : ConcatError}
    (h : concatPointArraysE base other axis ax3 l = Except.error e) :
    e = ConcatError.npRaised ∨
      ∃ n, e = ConcatError.seamFieldMismatch axis n := by
  induction l with
  | nil => exact Except.noConfusion h
  | cons hd tl ih =>
    simp only [concatPointArraysE] at h
    split at h
    · rename_i e1 he1
      injection h with h'
      subst h'
      exact Or.inl (take3E_error he1)
    split at h
    · rename_i e1 he1
      injection h with h'
      subst h'
      exact Or.inl (take3E_error he1)
    split at h
    · split at h
      · rename_i e1 he1
        injection h with h'
        subst h'
        exact Or.inl (concat3E_error he1)
      · split at h
        · rename_i e1 he1
          injection h with h'
          subst h'
          exact ih he1
        · exact Except.noConfusion h
    · injection h with h'
      subst h'
      exact Or.inr ⟨hd.1, rfl⟩

theorem concatCellArraysE_error {base other : Grid} {axis : ℤ}
    {l : List (String × List ℚ)} {e : ConcatError}
    (h : concatCellArraysE base other axis l = Except.error e) :
    e = ConcatError.npRaised := by
  induction l with
  | nil => exact Except.noConfusion h
  | cons hd tl ih =>
    simp only [concatCellArraysE] at h
    split at h
    · rename_i e1 he1
      injection h with h'
      subst h'
      exact concat3E_error he1
    · split at h
      · rename_i e1 he1
        injection h with h'
        subst h'
        exact ih he1
      · exact Except.noConfusion h

/-! ### C3: the seam-coincidence check -/

/-- The last layer of a grid's points matrix along axis `a`
(`np.take(points_matrix, indices=-1, axis=a)` for positive extent). -/
def seamLayerLast (g : Grid) (a : ℕ) : Arr3 :=
  del4 (points_matrix g) a (getAt3 g.dims a - 1)

/-- The first layer of a grid's points matrix along axis `a`
(`np.take(points_matrix, indices=0, axis=a)`). -/
def seamLayerFirst (g : Grid) (a : ℕ) : Arr3 :=
  del4 (points_matrix g) a 0

theorem seamLayer_shapes {base other : Grid} {a : ℕ} (ha : a < 3)
    (hdims : ∀ i, i < 3 → i ≠ a → getAt3 base.dims i = getAt3 other.dims i) :
    (seamLayerLast base a).s0 = (seamLayerFirst other a).s0 ∧
      (seamLayerLast base a).s1 = (seamLayerFirst other a).s1 ∧
      (seamLayerLast base a).s2 = (seamLayerFirst other a).s2 := by
  interval_cases a
  · exact ⟨hdims 1 (by omega) (by omega), hdims 2 (by omega) (by omega), rfl⟩
  · exact ⟨hdims 0 (by omega) (by omega), hdims 2 (by omega) (by omega), rfl⟩
  · exact ⟨hdims 0 (by omega) (by omega), hdims 1 (by omega) (by omega), rfl⟩

/-- C3 (amended): for grids that pass the axis, dimension and field-name
checks (and have positive extent along the axis), `concatenate` signals
the seam-coincidence error exactly when some coordinate of a point on
`base`'s last layer along the axis differs from the corresponding
coordinate on `other`'s first layer by more than
`tolerance + 1e-5 * |other's coordinate|`: the comparison inherits
`np.allclose`'s default relative tolerance `rtol = 1e-5` on top of the
absolute tolerance, and the boundary case (difference exactly equal to
the bound) is treated as coincident. -/
theorem c3_seam_check (base other : Grid) (a : ℕ) (tol : ℚ) (ha : a < 3)
    (hdims : ∀ i, i < 3 → i ≠ a → getAt3 base.dims i = getAt3 other.dims i)
    (hpn : setEqB (namesOf base.point_arrays) (namesOf other.point_arrays)
        = true)
    (hcn : setEqB (namesOf base.cell_arrays) (namesOf other.cell_arrays)
        = true)
    (hb : 0 < getAt3 base.dims a) (ho : 0 < getAt3 other.dims a) :
    concatenate base other (a : ℤ) tol
        = Except.error (ConcatError.seamMismatch (a : ℤ) tol) ↔
      ∃ x y z, x < (seamLayerLast base a).s0 ∧ y < (seamLayerLast base a).s1 ∧
        z < (seamLayerLast base a).s2 ∧
        tol + npRtol * ratAbs ((seamLayerFirst other a).val x y z)
          < ratAbs ((seamLayerLast base a).val x y z
              - (seamLayerFirst other a).val x y z) := by
  have hguard : ¬ (2 : ℤ) < (a : ℤ) := by omega
  have hdf : dimsIncompat base.dims other.dims (a : ℤ) = false := by
    rw [Bool.eq_false_iff]
    intro hc
    rw [dimsIncompat_iff] at hc
    obtain ⟨i, hi, hne, hd⟩ := hc
    exact hd (hdims i hi (by omega))
  have ht1 : take4E (points_matrix base) (-1) (a : ℤ)
      = Except.ok (seamLayerLast base a) := by
    rw [take4E_last (by omega) (by rw [size4_points_matrix ha]; exact hb)]
    unfold seamLayerLast
    rw [size4_points_matrix ha]
  have ht2 : take4E (points_matrix other) 0 (a : ℤ)
      = Except.ok (seamLayerFirst other a) := by
    rw [take4E_first (by omega) (by rw [size4_points_matrix ha]; exact ho)]
    rfl
  obtain ⟨hs0, hs1, hs2⟩ := seamLayer_shapes ha hdims
  unfold concatenate
  rw [if_neg hguard]
  simp only [hdf, hpn, hcn, Bool.not_true, Bool.false_eq_true, if_false,
    ht1, ht2]
  rcases hac : allclose3 (seamLayerLast base a) (seamLayerFirst other a) tol with _ | _
  · simp only [Bool.false_eq_true, if_false, true_iff]
    have hnot : ¬ ∀ x, x < (seamLayerLast base a).s0 →
        ∀ y, y < (seamLayerLast base a).s1 →
        ∀ z, z < (seamLayerLast base a).s2 →
        ratAbs ((seamLayerLast base a).val x y z
            - (seamLayerFirst other a).val x y z)
          ≤ tol + npRtol * ratAbs ((seamLayerFirst other a).val x y z) := by
      intro hall
      rw [(allclose3_iff hs0 hs1 hs2 tol).mpr hall] at hac
      exact Bool.noConfusion hac
    push_neg at hnot
    obtain ⟨x, hx, y, hy, z, hz, hlt⟩ := hnot
    exact ⟨x, y, z, hx, hy, hz, hlt⟩
  · simp only [if_true]
    constructor
    · intro h
      simp only [pyIdx3_natCast ha] at h
      rcases h4 : concat4E (sliceInit4 (points_matrix base) a)
          (points_matrix other) (a : ℤ) with e | np
      · simp only [h4] at h
        injection h with h'
        rw [concat4E_error h4] at h'
        exact ConcatError.noConfusion h'
      · simp only [h4] at h
        rcases hpa : concatPointArraysE base other (a : ℤ) a base.point_arrays
            with e | npd
        · simp only [hpa] at h
          injection h with h'
          rcases concatPointArraysE_error hpa with he | ⟨n, he⟩
          · rw [he] at h'
            exact ConcatError.noConfusion h'
          · rw [he] at h'
            exact ConcatError.noConfusion h'
        · simp only [hpa] at h
          rcases hca : concatCellArraysE base other (a : ℤ) base.cell_arrays
              with e | ncd
          · simp only [hca] at h
            injection h with h'
            rw [concatCellArraysE_error hca] at h'
            exact ConcatError.noConfusion h'
          · simp only [hca] at h
            rcases hre : reshapePtsE np with e | pts
            · simp only [hre] at h
              injection h with h'
              rw [reshapePtsE_error hre] at h'
              exact ConcatError.noConfusion h'
            · simp only [hre] at h
              exact Except.noConfusion h
    · intro hex
      obtain ⟨x, y, z, hx, hy, hz, hlt⟩ := hex
      have hall := (allclose3_iff hs0 hs1 hs2 tol).mp hac
      have := hall x hx y hy z hz
      exact absurd this (not_le.mpr hlt)

/-- Witness for the amended C3: two 1x1x1 grids whose x-coordinates are
1000005 and 1000000, tolerance 1: the difference 5 exceeds the tolerance
but not the relative allowance, so the iff rules the seam error out. -/
theorem c3_seam_check_witness :
    ((0 : ℕ) < 3 ∧ 0 < getAt3 cxA.dims 0 ∧ 0 < getAt3 cxB.dims 0) ∧
      (concatenate cxA cxB ((0 : ℕ) : ℤ) 1
          = Except.error (ConcatError.seamMismatch ((0 : ℕ) : ℤ) 1) ↔
        ∃ x y z, x < (seamLayerLast cxA 0).s0 ∧ y < (seamLayerLast cxA 0).s1 ∧
          z < (seamLayerLast cxA 0).s2 ∧
          1 + npRtol * ratAbs ((seamLayerFirst cxB 0).val x y z)
            < ratAbs ((seamLayerLast cxA 0).val x y z
                - (seamLayerFirst cxB 0).val x y z)) :=
  ⟨⟨by decide, by decide, by decide⟩,
    c3_seam_check cxA cxB 0 1 (by decide) (by decide) (by decide) (by decide)
      (by decide) (by decide)⟩

/-- C3 counterexample: on 1x1x1 grids with x-coordinates 1000005 and
1000000 and tolerance 1, a seam coordinate differs by more than the
tolerance, yet `concatenate` succeeds instead of signalling the
seam-coincidence error: `np.allclose` keeps its default relative
tolerance `1e-5`, so the comparison is not a pure absolute one. -/
theorem c3_counterexample :
    (1 : ℚ) < ratAbs ((seamLayerLast cxA 0).val 0 0 0
        - (seamLayerFirst cxB 0).val 0 0 0) ∧
      exOk (concatenate cxA cxB 0 1) = true := by
  refine ⟨by with_unfolding_all decide, by with_unfolding_all decide⟩

/-! ### Splitting a grid at a seam layer (C2) -/

/-- The point of grid `G` at lattice position `(i, j, k)` (Fortran-order
flat storage, spec §3). -/
def gridPointAt (G : Grid) (i j k : ℕ) : V3 :=
  G.points.getD (rank3 G.dims i j k) ⟨0, 0, 0⟩

/-- Build the flat Fortran-ordered points list of a grid of dimensions `d`
from a lattice-position function. -/
def mkPoints (d : Dims) (f : ℕ → ℕ → ℕ → V3) : List V3 :=
  (List.range (prodDims d)).map (fun p =>
    f (p % d.1) (p / d.1 % d.2.1) (p / (d.1 * d.2.1)))

/-- Build a flat Fortran-ordered data array of shape `d` from a
lattice-position function. -/
def mkField (d : Dims) (f : ℕ → ℕ → ℕ → ℚ) : List ℚ :=
  (List.range (prodDims d)).map (fun p =>
    f (p % d.1) (p / d.1 % d.2.1) (p / (d.1 * d.2.1)))

/-- Shift the lattice coordinate along axis `a` by `s`. -/
def shiftCoord (a s i j k : ℕ) : ℕ × ℕ × ℕ :=
  match a with
  | 0 => (i + s, j, k)
  | 1 => (i, j + s, k)
  | _ => (i, j, k + s)

/-- The lower part of splitting `G` along axis `a` at seam layer `s`:
layers `0 .. s` (inclusive), with all data arrays restricted accordingly. -/
def splitLow (G : Grid) (a s : ℕ) : Grid :=
  { dims := setAt3 G.dims a (s + 1)
    points := mkPoints (setAt3 G.dims a (s + 1)) (fun i j k => gridPointAt G i j k)
    point_arrays := G.point_arrays.map (fun pa =>
      (pa.1, mkField (setAt3 G.dims a (s + 1)) (fun i j k =>
        (reshapePointArray G.dims pa.2).val i j k)))
    cell_arrays := G.cell_arrays.map (fun ca =>
      (ca.1, mkField (cellDims (setAt3 G.dims a (s + 1))) (fun i j k =>
        (reshapeCellArray G.dims ca.2).val i j k)))
    field_arrays := [] }

/-- The upper part of splitting `G` along axis `a` at seam layer `s`:
layers `s .. last` (sharing layer `s` with the lower part). -/
def splitHigh (G : Grid) (a s : ℕ) : Grid :=
  { dims := setAt3 G.dims a (getAt3 G.dims a - s)
    points := mkPoints (setAt3 G.dims a (getAt3 G.dims a - s)) (fun i j k =>
      gridPointAt G (shiftCoord a s i j k).1 (shiftCoord a s i j k).2.1
        (shiftCoord a s i j k).2.2)
    point_arrays := G.point_arrays.map (fun pa =>
      (pa.1, mkField (setAt3 G.dims a (getAt3 G.dims a - s)) (fun i j k =>
        (reshapePointArray G.dims pa.2).val (shiftCoord a s i j k).1
          (shiftCoord a s i j k).2.1 (shiftCoord a s i j k).2.2)))
    cell_arrays := G.cell_arrays.map (fun ca =>
      (ca.1, mkField (cellDims (setAt3 G.dims a (getAt3 G.dims a - s)))
        (fun i j k => (reshapeCellArray G.dims ca.2).val
          (shiftCoord a s i j k).1 (shiftCoord a s i j k).2.1
          (shiftCoord a s i j k).2.2)))
    field_arrays := [] }

theorem mkPoints_getD {d : Dims} {f : ℕ → ℕ → ℕ → V3} {i j k : ℕ}
    (hi : i < d.1) (hj : j < d.2.1) (hk : k < d.2.2) :
    (mkPoints d f).getD (rank3 d i j k) ⟨0, 0, 0⟩ = f i j k := by
  unfold mkPoints
  rw [getD_range_map _ _ (rank3_lt hi hj hk)]
  rw [rank3_mod0 _ _ hi, rank3_div1 _ hi hj, rank3_div2 hi hj]

theorem mkField_getD {d : Dims} {f : ℕ → ℕ → ℕ → ℚ} {i j k : ℕ}
    (hi : i < d.1) (hj : j < d.2.1) (hk : k < d.2.2) :
    (mkField d f).getD (rank3 d i j k) 0 = f i j k := by
  unfold mkField
  rw [getD_range_map _ _ (rank3_lt hi hj hk)]
  rw [rank3_mod0 _ _ hi, rank3_div1 _ hi hj, rank3_div2 hi hj]

theorem mkPoints_length {d : Dims} {f : ℕ → ℕ → ℕ → V3} :
    (mkPoints d f).length = prodDims d := by
  simp [mkPoints]

theorem mkField_length {d : Dims} {f : ℕ → ℕ → ℕ → ℚ} :
    (mkField d f).length = prodDims d := by
  simp [mkField]

theorem splitLow_pm_val {G : Grid} {a s i j k l : ℕ}
    (hi : i < (setAt3 G.dims a (s + 1)).1)
    (hj : j < (setAt3 G.dims a (s + 1)).2.1)
    (hk : k < (setAt3 G.dims a (s + 1)).2.2) :
    (points_matrix (splitLow G a s)).val i j k l
      = V3.comp (gridPointAt G i j k) l :=
  congrArg (fun v => V3.comp v l)
    (mkPoints_getD (f := fun i j k => gridPointAt G i j k) hi hj hk)

theorem splitHigh_pm_val {G : Grid} {a s i j k l : ℕ}
    (hi : i < (setAt3 G.dims a (getAt3 G.dims a - s)).1)
    (hj : j < (setAt3 G.dims a (getAt3 G.dims a - s)).2.1)
    (hk : k < (setAt3 G.dims a (getAt3 G.dims a - s)).2.2) :
    (points_matrix (splitHigh G a s)).val i j k l
      = V3.comp (gridPointAt G (shiftCoord a s i j k).1
          (shiftCoord a s i j k).2.1 (shiftCoord a s i j k).2.2) l :=
  congrArg (fun v => V3.comp v l)
    (mkPoints_getD (f := fun i j k => gridPointAt G (shiftCoord a s i j k).1
      (shiftCoord a s i j k).2.1 (shiftCoord a s i j k).2.2) hi hj hk)

theorem V3_mk_comp (v : V3) : V3.mk (v.comp 0) (v.comp 1) (v.comp 2) = v := by
  cases v
  rfl

theorem getD_eq_getElem' {α : Type} {l : List α} {n : ℕ} {d : α}
    (h : n < l.length) : l.getD n d = l[n] := by
  rw [List.getD_eq_getElem?_getD, List.getElem?_eq_getElem h]
  rfl

/-- The joined points array of the split parts agrees with `G`'s points
matrix on every lattice position. -/
theorem cat4_split_val (G : Grid) (a s : ℕ) (ha : a < 3)
    (hs : s < getAt3 G.dims a) {i j k l : ℕ} (hi : i < G.dims.1)
    (hj : j < G.dims.2.1) (hk : k < G.dims.2.2) :
    (cat4 (sliceInit4 (points_matrix (splitLow G a s)) a)
        (points_matrix (splitHigh G a s)) a).val i j k l
      = V3.comp (gridPointAt G i j k) l := by
  interval_cases a
  · simp only [cat4, sliceInit4]
    have hE : (points_matrix (splitLow G 0 s)).s0 - 1 = s := rfl
    rw [hE]
    by_cases hc : i < s
    · rw [if_pos hc]
      exact splitLow_pm_val (by exact Nat.lt_succ_of_lt hc) hj hk
    · rw [if_neg hc]
      have h1 : i - s < getAt3 G.dims 0 - s := by
        have hg : getAt3 G.dims 0 = G.dims.1 := rfl
        omega
      rw [splitHigh_pm_val (G := G) (a := 0) (s := s) (l := l) h1 hj hk]
      simp only [shiftCoord]
      have h2 : i - s + s = i := by omega
      rw [h2]
  · simp only [cat4, sliceInit4]
    have hE : (points_matrix (splitLow G 1 s)).s1 - 1 = s := rfl
    rw [hE]
    by_cases hc : j < s
    · rw [if_pos hc]
      exact splitLow_pm_val hi (by exact Nat.lt_succ_of_lt hc) hk
    · rw [if_neg hc]
      have h1 : j - s < getAt3 G.dims 1 - s := by
        have hg : getAt3 G.dims 1 = G.dims.2.1 := rfl
        omega
      rw [splitHigh_pm_val (G := G) (a := 1) (s := s) (l := l) hi h1 hk]
      simp only [shiftCoord]
      have h2 : j - s + s = j := by omega
      rw [h2]
  · simp only [cat4, sliceInit4]
    have hE : (points_matrix (splitLow G 2 s)).s2 - 1 = s := rfl
    rw [hE]
    by_cases hc : k < s
    · rw [if_pos hc]
      exact splitLow_pm_val hi hj (by exact Nat.lt_succ_of_lt hc)
    · rw [if_neg hc]
      have h1 : k - s < getAt3 G.dims 2 - s := by
        have hg : getAt3 G.dims 2 = G.dims.2.2 := rfl
        omega
      rw [splitHigh_pm_val (G := G) (a := 2) (s := s) (l := l) hi hj h1]
      simp only [shiftCoord]
      have h2 : k - s + s = k := by omega
      rw [h2]

theorem namesOf_map {l : List (String × List ℚ)}
    {g : String × List ℚ → List ℚ} :
    namesOf (l.map (fun pa => (pa.1, g pa))) = namesOf l := by
  unfold namesOf
  rw [List.map_map]
  rfl

theorem setEqB_self (l : List String) : setEqB l l = true := by
  unfold setEqB
  have h : l.all (fun x => l.contains x) = true := by
    rw [List.all_eq_true]
    intro x hx
    exact List.elem_eq_true_of_mem hx
  rw [h]
  rfl

theorem lookupArr_map_of_nodup {l : List (String × List ℚ)}
    {g : String × List ℚ → List ℚ} (hnd : (namesOf l).Nodup)
    {name : String} {arr : List ℚ} (hmem : (name, arr) ∈ l) :
    lookupArr (l.map (fun pa => (pa.1, g pa))) name = g (name, arr) := by
  induction l with
  | nil => cases hmem
  | cons hd tl ih =>
    rcases List.mem_cons.mp hmem with heq | htl
    · subst heq
      simp [lookupArr]
    · have hne : hd.1 ≠ name := by
        intro hc
        have h1 : name ∈ namesOf tl := List.mem_map.mpr ⟨(name, arr), htl, rfl⟩
        have h2 : hd.1 ∉ namesOf tl := (List.nodup_cons.mp hnd).1
        rw [hc] at h2
        exact h2 h1
      have hstep : lookupArr ((hd.1, g hd) :: tl.map (fun pa => (pa.1, g pa)))
          name = lookupArr (tl.map (fun pa => (pa.1, g pa))) name := by
        show (if (hd.1 == name) = true then g hd
          else lookupArr (tl.map (fun pa => (pa.1, g pa))) name) = _
        rw [if_neg (by simpa using hne)]
      simp only [List.map_cons, hstep]
      exact ih (List.nodup_cons.mp hnd).2 htl

theorem shapeOk4_of_eq {A B : Arr4} {na : ℕ} (h0 : na = 0 ∨ A.s0 = B.s0)
    (h1 : na = 1 ∨ A.s1 = B.s1) (h2 : na = 2 ∨ A.s2 = B.s2)
    (h3 : na = 3 ∨ A.s3 = B.s3) : shapeOk4 A B na = true := by
  unfold shapeOk4
  simp only [Bool.and_eq_true, Bool.or_eq_true, beq_iff_eq]
  exact ⟨⟨⟨h0, h1⟩, h2⟩, h3⟩

theorem shapeOk3_of_eq {A B : Arr3} {na : ℕ} (h0 : na = 0 ∨ A.s0 = B.s0)
    (h1 : na = 1 ∨ A.s1 = B.s1) (h2 : na = 2 ∨ A.s2 = B.s2) :
    shapeOk3 A B na = true := by
  unfold shapeOk3
  simp only [Bool.and_eq_true, Bool.or_eq_true, beq_iff_eq]
  exact ⟨⟨h0, h1⟩, h2⟩

theorem ratAbs_nonneg (q : ℚ) : 0 ≤ ratAbs q := by
  unfold ratAbs
  split_ifs with h
  · linarith
  · linarith

theorem ratAbs_zero : ratAbs 0 = 0 := by
  unfold ratAbs
  rw [if_neg (lt_irrefl 0)]

/-- The seam allclose bound holds trivially when the two entries coincide. -/
theorem close_of_eq {x y tol : ℚ} (hxy : x = y) (htol : 0 ≤ tol) :
    ratAbs (x - y) ≤ tol + npRtol * ratAbs y := by
  rw [hxy, sub_self, ratAbs_zero]
  have h1 : 0 ≤ npRtol * ratAbs y :=
    mul_nonneg (by norm_num [npRtol]) (ratAbs_nonneg y)
  linarith

theorem reshapePointArray_mkField {d : Dims} {f : ℕ → ℕ → ℕ → ℚ} {i j k : ℕ}
    (hi : i < d.1) (hj : j < d.2.1) (hk : k < d.2.2) :
    (reshapePointArray d (mkField d f)).val i j k = f i j k :=
  mkField_getD hi hj hk

theorem ravel4At_eq {A : Arr4} {p c : ℕ} (hp : p < A.s0 * A.s1 * A.s2) :
    ravel4At A (p + A.s0 * A.s1 * A.s2 * c)
      = A.val (p % A.s0) (p / A.s0 % A.s1) (p / (A.s0 * A.s1) % A.s2) c := by
  obtain ⟨h0, h1, h2⟩ := pos_of_prod3_pos (lt_of_le_of_lt (Nat.zero_le p) hp)
  unfold ravel4At
  have e0 : (p + A.s0 * A.s1 * A.s2 * c) % A.s0 = p % A.s0 := by
    have h : A.s0 * A.s1 * A.s2 * c = A.s0 * (A.s1 * A.s2 * c) := by ring
    rw [h, Nat.add_mul_mod_self_left]
  have e1 : (p + A.s0 * A.s1 * A.s2 * c) / A.s0 % A.s1 = p / A.s0 % A.s1 := by
    have h : A.s0 * A.s1 * A.s2 * c = A.s0 * (A.s1 * (A.s2 * c)) := by ring
    rw [h, Nat.add_mul_div_left _ _ h0, Nat.add_mul_mod_self_left]
  have e2 : (p + A.s0 * A.s1 * A.s2 * c) / (A.s0 * A.s1) % A.s2
      = p / (A.s0 * A.s1) % A.s2 := by
    have h : A.s0 * A.s1 * A.s2 * c = A.s0 * A.s1 * (A.s2 * c) := by ring
    rw [h, Nat.add_mul_div_left _ _ (Nat.mul_pos h0 h1),
      Nat.add_mul_mod_self_left]
  have e3 : (p + A.s0 * A.s1 * A.s2 * c) / (A.s0 * A.s1 * A.s2) = c := by
    rw [Nat.add_mul_div_left _ _ (Nat.mul_pos (Nat.mul_pos h0 h1) h2),
      Nat.div_eq_of_lt hp, Nat.zero_add]
  rw [e0, e1, e2, e3]

theorem size3_reshapePointArray {d : Dims} {arr : List ℚ} {a : ℕ}
    (ha : a < 3) : size3 (reshapePointArray d arr) a = getAt3 d a := by
  interval_cases a <;> rfl

/-- The cell-array loop always succeeds on the split parts: it performs no
seam check, and the concatenation shapes agree away from the axis. -/
theorem concatCellArraysE_split_ok (G : Grid) (a s : ℕ) (ha : a < 3) :
    ∀ l : List (String × List ℚ),
      ∃ out, concatCellArraysE (splitLow G a s) (splitHigh G a s) (a : ℤ) l
        = Except.ok out := by
  intro l
  induction l with
  | nil => exact ⟨[], rfl⟩
  | cons hd tl ih =>
    obtain ⟨name, arr⟩ := hd
    obtain ⟨out', hout'⟩ := ih
    have hcc : concat3E (reshapeCellArray (splitLow G a s).dims arr)
        (reshapeCellArray (splitHigh G a s).dims
          (lookupArr (splitHigh G a s).cell_arrays name)) (a : ℤ)
        = Except.ok (cat3 (reshapeCellArray (splitLow G a s).dims arr)
            (reshapeCellArray (splitHigh G a s).dims
              (lookupArr (splitHigh G a s).cell_arrays name)) a) := by
      apply concat3E_eval ha
      interval_cases a
      · exact shapeOk3_of_eq (Or.inl rfl) (Or.inr rfl) (Or.inr rfl)
      · exact shapeOk3_of_eq (Or.inr rfl) (Or.inl rfl) (Or.inr rfl)
      · exact shapeOk3_of_eq (Or.inr rfl) (Or.inr rfl) (Or.inl rfl)
    simp only [concatCellArraysE, hcc, hout']
    exact ⟨_, rfl⟩

/-- The point-array loop succeeds on the split parts: each field's seam
values agree because both restrictions read the same layer of `G`. -/
theorem concatPointArraysE_split_ok (G : Grid) (a s : ℕ) (ha : a < 3)
    (hs : s < getAt3 G.dims a) (hnd : (namesOf G.point_arrays).Nodup) :
    ∀ l : List (String × List ℚ), (∀ pa, pa ∈ l → pa ∈ G.point_arrays) →
      ∃ out, concatPointArraysE (splitLow G a s) (splitHigh G a s) (a : ℤ) a
          (l.map (fun pa => (pa.1, mkField (setAt3 G.dims a (s + 1))
            (fun i j k => (reshapePointArray G.dims pa.2).val i j k))))
        = Except.ok out := by
  intro l
  induction l with
  | nil => exact fun _ => ⟨[], rfl⟩
  | cons hd tl ih =>
    intro hsub
    obtain ⟨name, arr⟩ := hd
    obtain ⟨out', hout'⟩ :=
      ih (fun pa hpa => hsub pa (List.mem_cons_of_mem _ hpa))
    have hmem : (name, arr) ∈ G.point_arrays :=
      hsub (name, arr) (List.mem_cons_self _ _)
    have hlook : lookupArr (splitHigh G a s).point_arrays name
        = mkField (setAt3 G.dims a (getAt3 G.dims a - s)) (fun i j k =>
            (reshapePointArray G.dims arr).val (shiftCoord a s i j k).1
              (shiftCoord a s i j k).2.1 (shiftCoord a s i j k).2.2) :=
      lookupArr_map_of_nodup hnd hmem
    have hsz1 : size3 (reshapePointArray (splitLow G a s).dims
        (mkField (setAt3 G.dims a (s + 1)) (fun i j k =>
          (reshapePointArray G.dims arr).val i j k))) a = s + 1 := by
      rw [size3_reshapePointArray ha]
      exact getAt3_setAt3_self ha
    have hsz2 : size3 (reshapePointArray (splitHigh G a s).dims
        (mkField (setAt3 G.dims a (getAt3 G.dims a - s)) (fun i j k =>
          (reshapePointArray G.dims arr).val (shiftCoord a s i j k).1
            (shiftCoord a s i j k).2.1 (shiftCoord a s i j k).2.2))) a
        = getAt3 G.dims a - s := by
      rw [size3_reshapePointArray ha]
      exact getAt3_setAt3_self ha
    have htake1 : take3E (reshapePointArray (splitLow G a s).dims
        (mkField (setAt3 G.dims a (s + 1)) (fun i j k =>
          (reshapePointArray G.dims arr).val i j k))) (-1) (a : ℤ)
        = Except.ok (del3 (reshapePointArray (splitLow G a s).dims
            (mkField (setAt3 G.dims a (s + 1)) (fun i j k =>
              (reshapePointArray G.dims arr).val i j k))) a s) := by
      rw [take3E_last ha (by rw [hsz1]; omega), hsz1, Nat.add_sub_cancel]
    have htake2 : take3E (reshapePointArray (splitHigh G a s).dims
        (mkField (setAt3 G.dims a (getAt3 G.dims a - s)) (fun i j k =>
          (reshapePointArray G.dims arr).val (shiftCoord a s i j k).1
            (shiftCoord a s i j k).2.1 (shiftCoord a s i j k).2.2))) 0 (a : ℤ)
        = Except.ok (del3 (reshapePointArray (splitHigh G a s).dims
            (mkField (setAt3 G.dims a (getAt3 G.dims a - s)) (fun i j k =>
              (reshapePointArray G.dims arr).val (shiftCoord a s i j k).1
                (shiftCoord a s i j k).2.1 (shiftCoord a s i j k).2.2))) a 0) := by
      rw [take3E_first ha (by rw [hsz2]; omega)]
    have heq : arrayEqual2
        (del3 (reshapePointArray (splitLow G a s).dims
          (mkField (setAt3 G.dims a (s + 1)) (fun i j k =>
            (reshapePointArray G.dims arr).val i j k))) a s)
        (del3 (reshapePointArray (splitHigh G a s).dims
          (mkField (setAt3 G.dims a (getAt3 G.dims a - s)) (fun i j k =>
            (reshapePointArray G.dims arr).val (shiftCoord a s i j k).1
              (shiftCoord a s i j k).2.1 (shiftCoord a s i j k).2.2))) a 0)
        = true := by
      have hshapes : (del3 (reshapePointArray (splitLow G a s).dims
            (mkField (setAt3 G.dims a (s + 1)) (fun i j k =>
              (reshapePointArray G.dims arr).val i j k))) a s).s0
          = (del3 (reshapePointArray (splitHigh G a s).dims
            (mkField (setAt3 G.dims a (getAt3 G.dims a - s)) (fun i j k =>
              (reshapePointArray G.dims arr).val (shiftCoord a s i j k).1
                (shiftCoord a s i j k).2.1 (shiftCoord a s i j k).2.2))) a 0).s0
          ∧ (del3 (reshapePointArray (splitLow G a s).dims
            (mkField (setAt3 G.dims a (s + 1)) (fun i j k =>
              (reshapePointArray G.dims arr).val i j k))) a s).s1
          = (del3 (reshapePointArray (splitHigh G a s).dims
            (mkField (setAt3 G.dims a (getAt3 G.dims a - s)) (fun i j k =>
              (reshapePointArray G.dims arr).val (shiftCoord a s i j k).1
                (shiftCoord a s i j k).2.1 (shiftCoord a s i j k).2.2))) a 0).s1 := by
        interval_cases a
        · exact ⟨rfl, rfl⟩
        · exact ⟨rfl, rfl⟩
        · exact ⟨rfl, rfl⟩
      rw [arrayEqual2_iff hshapes.1 hshapes.2]
      intro x hx y hy
      interval_cases a
      · have hL : (del3 (reshapePointArray (splitLow G 0 s).dims
              (mkField (setAt3 G.dims 0 (s + 1)) (fun i j k =>
                (reshapePointArray G.dims arr).val i j k))) 0 s).val x y
            = (reshapePointArray G.dims arr).val s x y :=
          reshapePointArray_mkField (d := setAt3 G.dims 0 (s + 1))
            (Nat.lt_succ_self s) hx hy
        have hH : (del3 (reshapePointArray (splitHigh G 0 s).dims
              (mkField (setAt3 G.dims 0 (getAt3 G.dims 0 - s)) (fun i j k =>
                (reshapePointArray G.dims arr).val (shiftCoord 0 s i j k).1
                  (shiftCoord 0 s i j k).2.1
                  (shiftCoord 0 s i j k).2.2))) 0 0).val x y
            = (reshapePointArray G.dims arr).val (0 + s) x y :=
          reshapePointArray_mkField (d := setAt3 G.dims 0 (getAt3 G.dims 0 - s))
            (show 0 < getAt3 G.dims 0 - s by omega) hx hy
        rw [hL, hH, Nat.zero_add]
      · have hL : (del3 (reshapePointArray (splitLow G 1 s).dims
              (mkField (setAt3 G.dims 1 (s + 1)) (fun i j k =>
                (reshapePointArray G.dims arr).val i j k))) 1 s).val x y
            = (reshapePointArray G.dims arr).val x s y :=
          reshapePointArray_mkField (d := setAt3 G.dims 1 (s + 1))
            hx (Nat.lt_succ_self s) hy
        have hH : (del3 (reshapePointArray (splitHigh G 1 s).dims
              (mkField (setAt3 G.dims 1 (getAt3 G.dims 1 - s)) (fun i j k =>
                (reshapePointArray G.dims arr).val (shiftCoord 1 s i j k).1
                  (shiftCoord 1 s i j k).2.1
                  (shiftCoord 1 s i j k).2.2))) 1 0).val x y
            = (reshapePointArray G.dims arr).val x (0 + s) y :=
          reshapePointArray_mkField (d := setAt3 G.dims 1 (getAt3 G.dims 1 - s))
            hx (show 0 < getAt3 G.dims 1 - s by omega) hy
        rw [hL, hH, Nat.zero_add]
      · have hL : (del3 (reshapePointArray (splitLow G 2 s).dims
              (mkField (setAt3 G.dims 2 (s + 1)) (fun i j k =>
                (reshapePointArray G.dims arr).val i j k))) 2 s).val x y
            = (reshapePointArray G.dims arr).val x y s :=
          reshapePointArray_mkField (d := setAt3 G.dims 2 (s + 1))
            hx hy (Nat.lt_succ_self s)
        have hH : (del3 (reshapePointArray (splitHigh G 2 s).dims
              (mkField (setAt3 G.dims 2 (getAt3 G.dims 2 - s)) (fun i j k =>
                (reshapePointArray G.dims arr).val (shiftCoord 2 s i j k).1
                  (shiftCoord 2 s i j k).2.1
                  (shiftCoord 2 s i j k).2.2))) 2 0).val x y
            = (reshapePointArray G.dims arr).val x y (0 + s) :=
          reshapePointArray_mkField (d := setAt3 G.dims 2 (getAt3 G.dims 2 - s))
            hx hy (show 0 < getAt3 G.dims 2 - s by omega)
        rw [hL, hH, Nat.zero_add]
    have hcc : concat3E (sliceInit3 (reshapePointArray (splitLow G a s).dims
        (mkField (setAt3 G.dims a (s + 1)) (fun i j k =>
          (reshapePointArray G.dims arr).val i j k))) a)
        (reshapePointArray (splitHigh G a s).dims
          (mkField (setAt3 G.dims a (getAt3 G.dims a - s)) (fun i j k =>
            (reshapePointArray G.dims arr).val (shiftCoord a s i j k).1
              (shiftCoord a s i j k).2.1 (shiftCoord a s i j k).2.2))) (a : ℤ)
        = Except.ok (cat3 (sliceInit3 (reshapePointArray (splitLow G a s).dims
            (mkField (setAt3 G.dims a (s + 1)) (fun i j k =>
              (reshapePointArray G.dims arr).val i j k))) a)
          (reshapePointArray (splitHigh G a s).dims
            (mkField (setAt3 G.dims a (getAt3 G.dims a - s)) (fun i j k =>
              (reshapePointArray G.dims arr).val (shiftCoord a s i j k).1
                (shiftCoord a s i j k).2.1 (shiftCoord a s i j k).2.2))) a) := by
      apply concat3E_eval ha
      interval_cases a
      · exact shapeOk3_of_eq (Or.inl rfl) (Or.inr rfl) (Or.inr rfl)
      · exact shapeOk3_of_eq (Or.inr rfl) (Or.inl rfl) (Or.inr rfl)
      · exact shapeOk3_of_eq (Or.inr rfl) (Or.inr rfl) (Or.inl rfl)
    simp only [List.map_cons, concatPointArraysE, hlook, htake1, htake2, heq,
      if_true, hcc, hout']
    exact ⟨_, rfl⟩

/-- C2: splitting a structured grid `G` along any axis in `{0, 1, 2}` into
two sub-grids that overlap at the seam layer and concatenating them back
succeeds (for any nonnegative tolerance) and reproduces `G`'s points
exactly. -/
theorem c2_split_roundtrip (G : Grid) (a s : ℕ) (tol : ℚ) (ha : a < 3)
    (hs : s < getAt3 G.dims a) (htol : 0 ≤ tol)
    (hlen : G.points.length = prodDims G.dims)
    (hnd : (namesOf G.point_arrays).Nodup) :
    ∃ J, concatenate (splitLow G a s) (splitHigh G a s) (a : ℤ) tol
        = Except.ok J ∧ J.points = G.points := by
  have hguard : ¬ (2 : ℤ) < (a : ℤ) := by omega
  have hdf : dimsIncompat (splitLow G a s).dims (splitHigh G a s).dims
      (a : ℤ) = false := by
    rw [Bool.eq_false_iff]
    intro hc
    rw [dimsIncompat_iff] at hc
    obtain ⟨i, hi, hne, hd⟩ := hc
    apply hd
    have hia : i ≠ a := by omega
    calc getAt3 (splitLow G a s).dims i = getAt3 G.dims i :=
          getAt3_setAt3_ne ha hi hia
      _ = getAt3 (splitHigh G a s).dims i := (getAt3_setAt3_ne ha hi hia).symm
  have hpn : setEqB (namesOf (splitLow G a s).point_arrays)
      (namesOf (splitHigh G a s).point_arrays) = true := by
    have h1 : namesOf (splitLow G a s).point_arrays = namesOf G.point_arrays :=
      namesOf_map
    have h2 : namesOf (splitHigh G a s).point_arrays = namesOf G.point_arrays :=
      namesOf_map
    rw [h1, h2]
    exact setEqB_self _
  have hcn : setEqB (namesOf (splitLow G a s).cell_arrays)
      (namesOf (splitHigh G a s).cell_arrays) = true := by
    have h1 : namesOf (splitLow G a s).cell_arrays = namesOf G.cell_arrays :=
      namesOf_map
    have h2 : namesOf (splitHigh G a s).cell_arrays = namesOf G.cell_arrays :=
      namesOf_map
    rw [h1, h2]
    exact setEqB_self _
  have hsz1 : size4 (points_matrix (splitLow G a s)) a = s + 1 := by
    rw [size4_points_matrix ha]
    exact getAt3_setAt3_self ha
  have hsz2 : size4 (points_matrix (splitHigh G a s)) a
      = getAt3 G.dims a - s := by
    rw [size4_points_matrix ha]
    exact getAt3_setAt3_self ha
  have ht1 : take4E (points_matrix (splitLow G a s)) (-1) (a : ℤ)
      = Except.ok (del4 (points_matrix (splitLow G a s)) a s) := by
    rw [take4E_last (by omega) (by rw [hsz1]; omega), hsz1, Nat.add_sub_cancel]
  have ht2 : take4E (points_matrix (splitHigh G a s)) 0 (a : ℤ)
      = Except.ok (del4 (points_matrix (splitHigh G a s)) a 0) :=
    take4E_first (by omega) (by rw [hsz2]; omega)
  have hshp : (del4 (points_matrix (splitLow G a s)) a s).s0
        = (del4 (points_matrix (splitHigh G a s)) a 0).s0
      ∧ (del4 (points_matrix (splitLow G a s)) a s).s1
        = (del4 (points_matrix (splitHigh G a s)) a 0).s1
      ∧ (del4 (points_matrix (splitLow G a s)) a s).s2
        = (del4 (points_matrix (splitHigh G a s)) a 0).s2 := by
    interval_cases a
    · exact ⟨rfl, rfl, rfl⟩
    · exact ⟨rfl, rfl, rfl⟩
    · exact ⟨rfl, rfl, rfl⟩
  have hclose : allclose3 (del4 (points_matrix (splitLow G a s)) a s)
      (del4 (points_matrix (splitHigh G a s)) a 0) tol = true := by
    rw [allclose3_iff hshp.1 hshp.2.1 hshp.2.2]
    intro x hx y hy z hz
    have hv : (del4 (points_matrix (splitLow G a s)) a s).val x y z
        = (del4 (points_matrix (splitHigh G a s)) a 0).val x y z := by
      interval_cases a
      · show (points_matrix (splitLow G 0 s)).val s x y z
          = (points_matrix (splitHigh G 0 s)).val 0 x y z
        rw [splitLow_pm_val (G := G) (a := 0) (s := s) (Nat.lt_succ_self s) hx hy,
          splitHigh_pm_val (G := G) (a := 0) (s := s)
            (show 0 < getAt3 G.dims 0 - s by omega) hx hy]
        simp only [shiftCoord]
        rw [Nat.zero_add]
      · show (points_matrix (splitLow G 1 s)).val x s y z
          = (points_matrix (splitHigh G 1 s)).val x 0 y z
        rw [splitLow_pm_val (G := G) (a := 1) (s := s) hx (Nat.lt_succ_self s) hy,
          splitHigh_pm_val (G := G) (a := 1) (s := s) hx
            (show 0 < getAt3 G.dims 1 - s by omega) hy]
        simp only [shiftCoord]
        rw [Nat.zero_add]
      · show (points_matrix (splitLow G 2 s)).val x y s z
          = (points_matrix (splitHigh G 2 s)).val x y 0 z
        rw [splitLow_pm_val (G := G) (a := 2) (s := s) hx hy (Nat.lt_succ_self s),
          splitHigh_pm_val (G := G) (a := 2) (s := s) hx hy
            (show 0 < getAt3 G.dims 2 - s by omega)]
        simp only [shiftCoord]
        rw [Nat.zero_add]
    exact close_of_eq hv htol
  have hcat : concat4E (sliceInit4 (points_matrix (splitLow G a s)) a)
      (points_matrix (splitHigh G a s)) (a : ℤ)
      = Except.ok (cat4 (sliceInit4 (points_matrix (splitLow G a s)) a)
          (points_matrix (splitHigh G a s)) a) := by
    apply concat4E_eval (by omega)
    interval_cases a
    · exact shapeOk4_of_eq (Or.inl rfl) (Or.inr rfl) (Or.inr rfl) (Or.inr rfl)
    · exact shapeOk4_of_eq (Or.inr rfl) (Or.inl rfl) (Or.inr rfl) (Or.inr rfl)
    · exact shapeOk4_of_eq (Or.inr rfl) (Or.inr rfl) (Or.inl rfl) (Or.inr rfl)
  obtain ⟨outP, houtP⟩ := concatPointArraysE_split_ok G a s ha hs hnd
    G.point_arrays (fun pa hpa => hpa)
  have houtP' : concatPointArraysE (splitLow G a s) (splitHigh G a s) (a : ℤ) a
      (splitLow G a s).point_arrays = Except.ok outP := houtP
  obtain ⟨outC, houtC⟩ := concatCellArraysE_split_ok G a s ha
    (splitLow G a s).cell_arrays
  have hC0 : (cat4 (sliceInit4 (points_matrix (splitLow G a s)) a)
      (points_matrix (splitHigh G a s)) a).s0 = G.dims.1 := by
    interval_cases a
    · show s + (getAt3 G.dims 0 - s) = G.dims.1
      have h : getAt3 G.dims 0 = G.dims.1 := rfl
      omega
    · rfl
    · rfl
  have hC1 : (cat4 (sliceInit4 (points_matrix (splitLow G a s)) a)
      (points_matrix (splitHigh G a s)) a).s1 = G.dims.2.1 := by
    interval_cases a
    · rfl
    · show s + (getAt3 G.dims 1 - s) = G.dims.2.1
      have h : getAt3 G.dims 1 = G.dims.2.1 := rfl
      omega
    · rfl
  have hC2 : (cat4 (sliceInit4 (points_matrix (splitLow G a s)) a)
      (points_matrix (splitHigh G a s)) a).s2 = G.dims.2.2 := by
    interval_cases a
    · rfl
    · rfl
    · show s + (getAt3 G.dims 2 - s) = G.dims.2.2
      have h : getAt3 G.dims 2 = G.dims.2.2 := rfl
      omega
  have hC3 : (cat4 (sliceInit4 (points_matrix (splitLow G a s)) a)
      (points_matrix (splitHigh G a s)) a).s3 = 3 := by
    interval_cases a
    · rfl
    · rfl
    · rfl
  have hdvd : ((cat4 (sliceInit4 (points_matrix (splitLow G a s)) a)
      (points_matrix (splitHigh G a s)) a).s0
      * (cat4 (sliceInit4 (points_matrix (splitLow G a s)) a)
          (points_matrix (splitHigh G a s)) a).s1
      * (cat4 (sliceInit4 (points_matrix (splitLow G a s)) a)
          (points_matrix (splitHigh G a s)) a).s2
      * (cat4 (sliceInit4 (points_matrix (splitLow G a s)) a)
          (points_matrix (splitHigh G a s)) a).s3 % 3 == 0) = true := by
    rw [hC3, Nat.mul_mod_left]
    rfl
  rcases hre : reshapePtsE (cat4 (sliceInit4 (points_matrix (splitLow G a s)) a)
      (points_matrix (splitHigh G a s)) a) with e | pts
  · exfalso
    unfold reshapePtsE at hre
    rw [if_pos hdvd] at hre
    exact Except.noConfusion hre
  · have hpts : pts = (List.range
        (((cat4 (sliceInit4 (points_matrix (splitLow G a s)) a)
            (points_matrix (splitHigh G a s)) a).s0
          * (cat4 (sliceInit4 (points_matrix (splitLow G a s)) a)
              (points_matrix (splitHigh G a s)) a).s1
          * (cat4 (sliceInit4 (points_matrix (splitLow G a s)) a)
              (points_matrix (splitHigh G a s)) a).s2
          * (cat4 (sliceInit4 (points_matrix (splitLow G a s)) a)
              (points_matrix (splitHigh G a s)) a).s3) / 3)).map (fun p =>
        ⟨ravel4At (cat4 (sliceInit4 (points_matrix (splitLow G a s)) a)
            (points_matrix (splitHigh G a s)) a) p,
          ravel4At (cat4 (sliceInit4 (points_matrix (splitLow G a s)) a)
              (points_matrix (splitHigh G a s)) a)
            (p + ((cat4 (sliceInit4 (points_matrix (splitLow G a s)) a)
                (points_matrix (splitHigh G a s)) a).s0
              * (cat4 (sliceInit4 (points_matrix (splitLow G a s)) a)
                  (points_matrix (splitHigh G a s)) a).s1
              * (cat4 (sliceInit4 (points_matrix (splitLow G a s)) a)
                  (points_matrix (splitHigh G a s)) a).s2
              * (cat4 (sliceInit4 (points_matrix (splitLow G a s)) a)
                  (points_matrix (splitHigh G a s)) a).s3) / 3),
          ravel4At (cat4 (sliceInit4 (points_matrix (splitLow G a s)) a)
              (points_matrix (splitHigh G a s)) a)
            (p + 2 * (((cat4 (sliceInit4 (points_matrix (splitLow G a s)) a)
                (points_matrix (splitHigh G a s)) a).s0
              * (cat4 (sliceInit4 (points_matrix (splitLow G a s)) a)
                  (points_matrix (splitHigh G a s)) a).s1
              * (cat4 (sliceInit4 (points_matrix (splitLow G a s)) a)
                  (points_matrix (splitHigh G a s)) a).s2
              * (cat4 (sliceInit4 (points_matrix (splitLow G a s)) a)
                  (points_matrix (splitHigh G a s)) a).s3) / 3))⟩) := by
      unfold reshapePtsE at hre
      rw [if_pos hdvd] at hre
      injection hre with h'
      exact h'.symm
    refine ⟨Grid.mk (setAt3 (splitLow G a s).dims a
        (getAt3 (splitLow G a s).dims a + getAt3 (splitHigh G a s).dims a - 1))
      pts outP outC [], ?_, ?_⟩
    · unfold concatenate
      rw [if_neg hguard]
      simp only [hdf, hpn, hcn, ht1, ht2, hclose, if_true, pyIdx3_natCast ha,
        hcat, houtP', houtC, hre]
      simp
    · show pts = G.points
      rw [hpts]
      apply List.ext_getElem
      · rw [List.length_map, List.length_range, hC0, hC1, hC2, hC3, hlen]
        rw [Nat.mul_div_cancel _ (by norm_num : (0 : ℕ) < 3)]
        rfl
      intro p hp1 hp2
      rw [List.getElem_map, List.getElem_range]
      have hpN : p < G.dims.1 * G.dims.2.1 * G.dims.2.2 := by
        rw [List.length_map, List.length_range, hC0, hC1, hC2, hC3] at hp1
        rwa [Nat.mul_div_cancel _ (by norm_num : (0 : ℕ) < 3)] at hp1
      have hpC : p < (cat4 (sliceInit4 (points_matrix (splitLow G a s)) a)
          (points_matrix (splitHigh G a s)) a).s0
          * (cat4 (sliceInit4 (points_matrix (splitLow G a s)) a)
              (points_matrix (splitHigh G a s)) a).s1
          * (cat4 (sliceInit4 (points_matrix (splitLow G a s)) a)
              (points_matrix (splitHigh G a s)) a).s2 := by
        rw [hC0, hC1, hC2]
        exact hpN
      have hM : ((cat4 (sliceInit4 (points_matrix (splitLow G a s)) a)
          (points_matrix (splitHigh G a s)) a).s0
          * (cat4 (sliceInit4 (points_matrix (splitLow G a s)) a)
              (points_matrix (splitHigh G a s)) a).s1
          * (cat4 (sliceInit4 (points_matrix (splitLow G a s)) a)
              (points_matrix (splitHigh G a s)) a).s2
          * (cat4 (sliceInit4 (points_matrix (splitLow G a s)) a)
              (points_matrix (splitHigh G a s)) a).s3) / 3
          = (cat4 (sliceInit4 (points_matrix (splitLow G a s)) a)
              (points_matrix (splitHigh G a s)) a).s0
            * (cat4 (sliceInit4 (points_matrix (splitLow G a s)) a)
                (points_matrix (splitHigh G a s)) a).s1
            * (cat4 (sliceInit4 (points_matrix (splitLow G a s)) a)
                (points_matrix (splitHigh G a s)) a).s2 := by
        rw [hC3, Nat.mul_div_cancel _ (by norm_num : (0 : ℕ) < 3)]
      have h0' := ravel4At_eq (A := cat4 (sliceInit4 (points_matrix
        (splitLow G a s)) a) (points_matrix (splitHigh G a s)) a) (c := 0) hpC
      have h1' := ravel4At_eq (A := cat4 (sliceInit4 (points_matrix
        (splitLow G a s)) a) (points_matrix (splitHigh G a s)) a) (c := 1) hpC
      have h2' := ravel4At_eq (A := cat4 (sliceInit4 (points_matrix
        (splitLow G a s)) a) (points_matrix (splitHigh G a s)) a) (c := 2) hpC
      rw [Nat.mul_zero, Nat.add_zero] at h0'
      rw [Nat.mul_one] at h1'
      rw [hM, h0']
      rw [h1']
      rw [show (2 : ℕ) * ((cat4 (sliceInit4 (points_matrix (splitLow G a s)) a)
          (points_matrix (splitHigh G a s)) a).s0
          * (cat4 (sliceInit4 (points_matrix (splitLow G a s)) a)
              (points_matrix (splitHigh G a s)) a).s1
          * (cat4 (sliceInit4 (points_matrix (splitLow G a s)) a)
              (points_matrix (splitHigh G a s)) a).s2)
          = (cat4 (sliceInit4 (points_matrix (splitLow G a s)) a)
              (points_matrix (splitHigh G a s)) a).s0
            * (cat4 (sliceInit4 (points_matrix (splitLow G a s)) a)
                (points_matrix (splitHigh G a s)) a).s1
            * (cat4 (sliceInit4 (points_matrix (splitLow G a s)) a)
                (points_matrix (splitHigh G a s)) a).s2 * 2 from by ring, h2']
      rw [hC0, hC1, hC2]
      have hu2 : p / (G.dims.1 * G.dims.2.1) % G.dims.2.2
          = p / (G.dims.1 * G.dims.2.1) := Nat.mod_eq_of_lt (unrank2_lt hpN)
      rw [hu2]
      simp only [cat4_split_val G a s ha hs (unrank0_lt hpN) (unrank1_lt hpN)
        (unrank2_lt hpN)]
      rw [V3_mk_comp]
      unfold gridPointAt
      rw [rank3_unrank]
      exact getD_eq_getElem' (by rw [hlen]; exact hpN)

/-- A 3x1x1 grid with one point field and one cell field. -/
def wG : Grid :=
  ⟨(3, 1, 1), [⟨0, 0, 0⟩, ⟨1, 0, 0⟩, ⟨2, 0, 0⟩], [("t", [0, 1, 2])],
    [("c", [10, 20])], []⟩

/-- Witness for C2: split the 3x1x1 grid at seam layer 1 along axis 0. -/
theorem c2_split_roundtrip_witness :
    ((0 : ℕ) < 3 ∧ (1 : ℕ) < getAt3 wG.dims 0 ∧ (0 : ℚ) ≤ 0 ∧
        wG.points.length = prodDims wG.dims ∧
        (namesOf wG.point_arrays).Nodup) ∧
      ∃ J, concatenate (splitLow wG 0 1) (splitHigh wG 0 1) ((0 : ℕ) : ℤ) 0
          = Except.ok J ∧ J.points = wG.points :=
  ⟨⟨by decide, by decide, by with_unfolding_all decide, by decide, by decide⟩,
    c2_split_roundtrip wG 0 1 0 (by decide) (by decide)
      (by with_unfolding_all decide) (by decide) (by decide)⟩

/-- Eliminate a successful run of `concatenate`: every validation check
passed. -/
theorem concatenate_ok_checks {base other : Grid} {axis : ℤ} {tol : ℚ}
    {J : Grid} (hok : concatenate base other axis tol = Except.ok J) :
    ¬ 2 < axis ∧ dimsIncompat base.dims other.dims axis = false ∧
      setEqB (namesOf base.point_arrays) (namesOf other.point_arrays) = true ∧
      setEqB (namesOf base.cell_arrays) (namesOf other.cell_arrays) = true := by
  unfold concatenate at hok
  split at hok
  · exact Except.noConfusion hok
  rename_i hax
  split at hok
  · exact Except.noConfusion hok
  rename_i hdims
  split at hok
  · exact Except.noConfusion hok
  rename_i hpn
  split at hok
  · exact Except.noConfusion hok
  rename_i hcn
  refine ⟨hax, by simpa using hdims, by simpa using hpn, by simpa using hcn⟩

/-- C9: on every successful concatenation along a valid axis (with
well-formed inputs), the seam layer of the output — the lattice positions
whose coordinate along the axis is `base.dimensions[axis] - 1` — carries
the point coordinates of `other`'s first layer along the axis: `base`'s
duplicated last layer is the one dropped, so where the two seam layers
differ (within tolerance), the output holds `other`'s coordinates. -/
theorem c9_seam_points_from_other (base other J : Grid) (a : ℕ) (tol : ℚ)
    (ha : a < 3) (hok : concatenate base other (a : ℤ) tol = Except.ok J)
    (hb1 : 0 < getAt3 base.dims a)
    (i j k : ℕ) (hi : i < J.dims.1) (hj : j < J.dims.2.1)
    (hk : k < J.dims.2.2)
    (hseam : getAt3 (i, j, k) a = getAt3 base.dims a - 1) :
    gridPointAt J i j k
      = gridPointAt other (setAt3 (i, j, k) a 0).1 (setAt3 (i, j, k) a 0).2.1
          (setAt3 (i, j, k) a 0).2.2 := by
  obtain ⟨ax3, newPoints, npd, ncd, pts, hpy, hnp, hnpd, hncd, hpts, hJ⟩ :=
    concatenate_ok_elim hok
  rw [pyIdx3_natCast ha] at hpy
  injection hpy with hax
  subst hax
  have hNP : newPoints = cat4 (sliceInit4 (points_matrix base) a)
      (points_matrix other) a := by
    simp only [concat4E, npAxis_natCast (by omega : a < 4)] at hnp
    split at hnp
    · injection hnp with h'
      exact h'.symm
    · exact Except.noConfusion hnp
  subst hNP
  have hC3 : (cat4 (sliceInit4 (points_matrix base) a)
      (points_matrix other) a).s3 = 3 := by
    interval_cases a
    · rfl
    · rfl
    · rfl
  have hdvd : ((cat4 (sliceInit4 (points_matrix base) a)
      (points_matrix other) a).s0
      * (cat4 (sliceInit4 (points_matrix base) a)
          (points_matrix other) a).s1
      * (cat4 (sliceInit4 (points_matrix base) a)
          (points_matrix other) a).s2
      * (cat4 (sliceInit4 (points_matrix base) a)
          (points_matrix other) a).s3 % 3 == 0) = true := by
    rw [hC3, Nat.mul_mod_left]
    rfl
  unfold reshapePtsE at hpts
  rw [if_pos hdvd] at hpts
  injection hpts with hptsv
  have hC0 : (cat4 (sliceInit4 (points_matrix base) a)
      (points_matrix other) a).s0 = J.dims.1 := by
    rw [hJ]
    interval_cases a
    · show getAt3 base.dims 0 - 1 + getAt3 other.dims 0
        = getAt3 base.dims 0 + getAt3 other.dims 0 - 1
      omega
    · rfl
    · rfl
  have hC1 : (cat4 (sliceInit4 (points_matrix base) a)
      (points_matrix other) a).s1 = J.dims.2.1 := by
    rw [hJ]
    interval_cases a
    · rfl
    · show getAt3 base.dims 1 - 1 + getAt3 other.dims 1
        = getAt3 base.dims 1 + getAt3 other.dims 1 - 1
      omega
    · rfl
  have hC2 : (cat4 (sliceInit4 (points_matrix base) a)
      (points_matrix other) a).s2 = J.dims.2.2 := by
    rw [hJ]
    interval_cases a
    · rfl
    · rfl
    · show getAt3 base.dims 2 - 1 + getAt3 other.dims 2
        = getAt3 base.dims 2 + getAt3 other.dims 2 - 1
      omega
  have hq : rank3 J.dims i j k < J.dims.1 * J.dims.2.1 * J.dims.2.2 :=
    rank3_lt hi hj hk
  have hqC : rank3 J.dims i j k
      < (cat4 (sliceInit4 (points_matrix base) a)
          (points_matrix other) a).s0
        * (cat4 (sliceInit4 (points_matrix base) a)
            (points_matrix other) a).s1
        * (cat4 (sliceInit4 (points_matrix base) a)
            (points_matrix other) a).s2 := by
    rw [hC0, hC1, hC2]
    exact hq
  have hlenN : ((cat4 (sliceInit4 (points_matrix base) a)
      (points_matrix other) a).s0
      * (cat4 (sliceInit4 (points_matrix base) a)
          (points_matrix other) a).s1
      * (cat4 (sliceInit4 (points_matrix base) a)
          (points_matrix other) a).s2
      * (cat4 (sliceInit4 (points_matrix base) a)
          (points_matrix other) a).s3) / 3
      = (cat4 (sliceInit4 (points_matrix base) a)
          (points_matrix other) a).s0
        * (cat4 (sliceInit4 (points_matrix base) a)
            (points_matrix other) a).s1
        * (cat4 (sliceInit4 (points_matrix base) a)
            (points_matrix other) a).s2 := by
    rw [hC3, Nat.mul_div_cancel _ (by norm_num : (0 : ℕ) < 3)]
  have hJpts : J.points = pts := by
    rw [hJ]
  unfold gridPointAt
  rw [hJpts, ← hptsv]
  rw [getD_range_map _ _ (by rw [hlenN]; exact hqC)]
  have h0' := ravel4At_eq (A := cat4 (sliceInit4 (points_matrix base) a)
    (points_matrix other) a) (c := 0) hqC
  have h1' := ravel4At_eq (A := cat4 (sliceInit4 (points_matrix base) a)
    (points_matrix other) a) (c := 1) hqC
  have h2' := ravel4At_eq (A := cat4 (sliceInit4 (points_matrix base) a)
    (points_matrix other) a) (c := 2) hqC
  rw [Nat.mul_zero, Nat.add_zero] at h0'
  rw [Nat.mul_one] at h1'
  rw [hlenN, h0', h1']
  rw [show (2 : ℕ) * ((cat4 (sliceInit4 (points_matrix base) a)
      (points_matrix other) a).s0
      * (cat4 (sliceInit4 (points_matrix base) a)
          (points_matrix other) a).s1
      * (cat4 (sliceInit4 (points_matrix base) a)
          (points_matrix other) a).s2)
      = (cat4 (sliceInit4 (points_matrix base) a)
          (points_matrix other) a).s0
        * (cat4 (sliceInit4 (points_matrix base) a)
            (points_matrix other) a).s1
        * (cat4 (sliceInit4 (points_matrix base) a)
            (points_matrix other) a).s2 * 2 from by ring, h2']
  rw [hC0, hC1, hC2]
  have hm0 : rank3 J.dims i j k % J.dims.1 = i := rank3_mod0 _ _ hi
  have hm1 : rank3 J.dims i j k / J.dims.1 % J.dims.2.1 = j :=
    rank3_div1 _ hi hj
  have hm2 : rank3 J.dims i j k / (J.dims.1 * J.dims.2.1) % J.dims.2.2 = k := by
    rw [rank3_div2 hi hj]
    exact Nat.mod_eq_of_lt hk
  rw [hm0, hm1, hm2]
  have hval : ∀ l : ℕ, (cat4 (sliceInit4 (points_matrix base) a)
      (points_matrix other) a).val i j k l
      = V3.comp (gridPointAt other (setAt3 (i, j, k) a 0).1
          (setAt3 (i, j, k) a 0).2.1 (setAt3 (i, j, k) a 0).2.2) l := by
    intro l
    interval_cases a
    · have hcond : ¬ i < (points_matrix base).s0 - 1 := by
        have hI : i = getAt3 base.dims 0 - 1 := hseam
        have hpm : (points_matrix base).s0 = getAt3 base.dims 0 := rfl
        omega
      show (if i < (points_matrix base).s0 - 1 then _ else _) = _
      rw [if_neg hcond]
      have hI0 : i - (sliceInit4 (points_matrix base) 0).s0 = 0 := by
        have hI : i = getAt3 base.dims 0 - 1 := hseam
        have hpm : (sliceInit4 (points_matrix base) 0).s0
            = getAt3 base.dims 0 - 1 := rfl
        omega
      rw [hI0]
      rfl
    · have hcond : ¬ j < (points_matrix base).s1 - 1 := by
        have hI : j = getAt3 base.dims 1 - 1 := hseam
        have hpm : (points_matrix base).s1 = getAt3 base.dims 1 := rfl
        omega
      show (if j < (points_matrix base).s1 - 1 then _ else _) = _
      rw [if_neg hcond]
      have hI0 : j - (sliceInit4 (points_matrix base) 1).s1 = 0 := by
        have hI : j = getAt3 base.dims 1 - 1 := hseam
        have hpm : (sliceInit4 (points_matrix base) 1).s1
            = getAt3 base.dims 1 - 1 := rfl
        omega
      rw [hI0]
      rfl
    · have hcond : ¬ k < (points_matrix base).s2 - 1 := by
        have hI : k = getAt3 base.dims 2 - 1 := hseam
        have hpm : (points_matrix base).s2 = getAt3 base.dims 2 := rfl
        omega
      show (if k < (points_matrix base).s2 - 1 then _ else _) = _
      rw [if_neg hcond]
      have hI0 : k - (sliceInit4 (points_matrix base) 2).s2 = 0 := by
        have hI : k = getAt3 base.dims 2 - 1 := hseam
        have hpm : (sliceInit4 (points_matrix base) 2).s2
            = getAt3 base.dims 2 - 1 := rfl
        omega
      rw [hI0]
      rfl
  rw [hval 0, hval 1, hval 2]
  exact V3_mk_comp _

/-- The result of joining `cxA` and `cxB` along axis 0 with tolerance 1. -/
def cxJ : Grid := ⟨(1, 1, 1), [⟨1000000, 0, 0⟩], [], [], []⟩

/-- Witness for C9 on the pair `cxA`, `cxB`: the output's single (seam)
point is `cxB`'s, not `cxA`'s. -/
theorem c9_seam_points_from_other_witness :
    ((0 : ℕ) < 3 ∧ concatenate cxA cxB ((0 : ℕ) : ℤ) 1 = Except.ok cxJ ∧
        0 < getAt3 cxA.dims 0 ∧ (0 : ℕ) < cxJ.dims.1 ∧ (0 : ℕ) < cxJ.dims.2.1 ∧
        (0 : ℕ) < cxJ.dims.2.2 ∧
        getAt3 ((0 : ℕ), (0 : ℕ), (0 : ℕ)) 0 = getAt3 cxA.dims 0 - 1) ∧
      gridPointAt cxJ 0 0 0
        = gridPointAt cxB (setAt3 (0, 0, 0) 0 0).1 (setAt3 (0, 0, 0) 0 0).2.1
            (setAt3 (0, 0, 0) 0 0).2.2 :=
  ⟨⟨by decide, by with_unfolding_all rfl, by decide, by decide, by decide,
      by decide, by decide⟩,
    c9_seam_points_from_other cxA cxB cxJ 0 1 (by decide)
      (by with_unfolding_all rfl) (by decide) 0 0 0 (by decide) (by decide)
      (by decide) (by decide)⟩

/-! ### Machinery for C7: totality with well-formed output -/

theorem ravelF3_length {A : Arr3} : (ravelF3 A).length = A.s0 * A.s1 * A.s2 := by
  simp [ravelF3]

theorem cellDim_add {m n : ℕ} (hm : 2 ≤ m) (hn : 2 ≤ n) :
    cellDim m + cellDim n = cellDim (m + n - 1) := by
  unfold cellDim
  rw [if_neg (by omega), if_neg (by omega), if_neg (by omega)]
  omega

/-- The cell-array loop of `concatenate` always succeeds when the
dimensions agree away from the (valid) axis, and every produced array has
one value per cell of the output lattice. -/
theorem concatCellArraysE_wf (base other : Grid) (a : ℕ) (ha : a < 3)
    (hoff : ∀ i, i < 3 → i ≠ a → getAt3 base.dims i = getAt3 other.dims i)
    (hb2 : 2 ≤ getAt3 base.dims a) (ho2 : 2 ≤ getAt3 other.dims a) :
    ∀ l, ∃ out, concatCellArraysE base other (a : ℤ) l = Except.ok out ∧
      namesOf out = namesOf l ∧
      ∀ en ∈ out, (Prod.snd en).length
        = prodDims (cellDims (setAt3 base.dims a
            (getAt3 base.dims a + getAt3 other.dims a - 1))) := by
  intro l
  induction l with
  | nil =>
    refine ⟨[], rfl, rfl, ?_⟩
    intro en hen
    cases hen
  | cons hd tl ih =>
    obtain ⟨name, arr⟩ := hd
    obtain ⟨out', hout', hnames', hlens'⟩ := ih
    have hcc : concat3E (reshapeCellArray base.dims arr)
        (reshapeCellArray other.dims (lookupArr other.cell_arrays name))
        (a : ℤ)
        = Except.ok (cat3 (reshapeCellArray base.dims arr)
            (reshapeCellArray other.dims (lookupArr other.cell_arrays name))
            a) := by
      apply concat3E_eval ha
      interval_cases a
      · exact shapeOk3_of_eq (Or.inl rfl)
          (Or.inr (congrArg cellDim (hoff 1 (by omega) (by omega))))
          (Or.inr (congrArg cellDim (hoff 2 (by omega) (by omega))))
      · exact shapeOk3_of_eq
          (Or.inr (congrArg cellDim (hoff 0 (by omega) (by omega))))
          (Or.inl rfl)
          (Or.inr (congrArg cellDim (hoff 2 (by omega) (by omega))))
      · exact shapeOk3_of_eq
          (Or.inr (congrArg cellDim (hoff 0 (by omega) (by omega))))
          (Or.inr (congrArg cellDim (hoff 1 (by omega) (by omega))))
          (Or.inl rfl)
    refine ⟨(name, ravelF3 (cat3 (reshapeCellArray base.dims arr)
        (reshapeCellArray other.dims (lookupArr other.cell_arrays name)) a))
        :: out', ?_, ?_, ?_⟩
    · simp only [concatCellArraysE, hcc, hout']
    · show name :: namesOf out' = name :: namesOf tl
      rw [hnames']
    · intro en hen
      rcases List.mem_cons.mp hen with h | h
      · subst h
        show (ravelF3 (cat3 (reshapeCellArray base.dims arr)
            (reshapeCellArray other.dims (lookupArr other.cell_arrays name))
            a)).length = _
        rw [ravelF3_length]
        interval_cases a
        · show (cellDim (getAt3 base.dims 0) + cellDim (getAt3 other.dims 0))
              * cellDim base.dims.2.1 * cellDim base.dims.2.2
            = cellDim (getAt3 base.dims 0 + getAt3 other.dims 0 - 1)
              * cellDim base.dims.2.1 * cellDim base.dims.2.2
          rw [cellDim_add hb2 ho2]
        · show cellDim base.dims.1
              * (cellDim (getAt3 base.dims 1) + cellDim (getAt3 other.dims 1))
              * cellDim base.dims.2.2
            = cellDim base.dims.1
              * cellDim (getAt3 base.dims 1 + getAt3 other.dims 1 - 1)
              * cellDim base.dims.2.2
          rw [cellDim_add hb2 ho2]
        · show cellDim base.dims.1 * cellDim base.dims.2.1
              * (cellDim (getAt3 base.dims 2) + cellDim (getAt3 other.dims 2))
            = cellDim base.dims.1 * cellDim base.dims.2.1
              * cellDim (getAt3 base.dims 2 + getAt3 other.dims 2 - 1)
          rw [cellDim_add hb2 ho2]
      · exact hlens' en h

/-- The point-array loop of `concatenate` either signals a per-field seam
mismatch or succeeds with one value per point of the output lattice. -/
theorem concatPointArraysE_wf (base other : Grid) (a : ℕ) (ha : a < 3)
    (hoff : ∀ i, i < 3 → i ≠ a → getAt3 base.dims i = getAt3 other.dims i)
    (hb1 : 0 < getAt3 base.dims a) (ho1 : 0 < getAt3 other.dims a) :
    ∀ l, (∃ n, concatPointArraysE base other (a : ℤ) a l
          = Except.error (ConcatError.seamFieldMismatch (a : ℤ) n)) ∨
      ∃ out, concatPointArraysE base other (a : ℤ) a l = Except.ok out ∧
        namesOf out = namesOf l ∧
        ∀ en ∈ out, (Prod.snd en).length
          = prodDims (setAt3 base.dims a
              (getAt3 base.dims a + getAt3 other.dims a - 1)) := by
  intro l
  induction l with
  | nil =>
    right
    refine ⟨[], rfl, rfl, ?_⟩
    intro en hen
    cases hen
  | cons hd tl ih =>
    obtain ⟨name, arr⟩ := hd
    have htake1 : take3E (reshapePointArray base.dims arr) (-1) (a : ℤ)
        = Except.ok (del3 (reshapePointArray base.dims arr) a
            (getAt3 base.dims a - 1)) := by
      rw [take3E_last ha (by rw [size3_reshapePointArray ha]; omega),
        size3_reshapePointArray ha]
    have htake2 : take3E (reshapePointArray other.dims
        (lookupArr other.point_arrays name)) 0 (a : ℤ)
        = Except.ok (del3 (reshapePointArray other.dims
            (lookupArr other.point_arrays name)) a 0) :=
      take3E_first ha (by rw [size3_reshapePointArray ha]; omega)
    cases harr : arrayEqual2
        (del3 (reshapePointArray base.dims arr) a (getAt3 base.dims a - 1))
        (del3 (reshapePointArray other.dims
          (lookupArr other.point_arrays name)) a 0) with
    | false =>
      left
      refine ⟨name, ?_⟩
      simp only [concatPointArraysE, htake1, htake2, harr, Bool.false_eq_true,
        if_false]
    | true =>
      have hcc : concat3E (sliceInit3 (reshapePointArray base.dims arr) a)
          (reshapePointArray other.dims (lookupArr other.point_arrays name))
          (a : ℤ)
          = Except.ok (cat3 (sliceInit3 (reshapePointArray base.dims arr) a)
              (reshapePointArray other.dims
                (lookupArr other.point_arrays name)) a) := by
        apply concat3E_eval ha
        interval_cases a
        · exact shapeOk3_of_eq (Or.inl rfl)
            (Or.inr (hoff 1 (by omega) (by omega)))
            (Or.inr (hoff 2 (by omega) (by omega)))
        · exact shapeOk3_of_eq (Or.inr (hoff 0 (by omega) (by omega)))
            (Or.inl rfl) (Or.inr (hoff 2 (by omega) (by omega)))
        · exact shapeOk3_of_eq (Or.inr (hoff 0 (by omega) (by omega)))
            (Or.inr (hoff 1 (by omega) (by omega))) (Or.inl rfl)
      rcases ih with ⟨n, hih⟩ | ⟨out', hout', hnames', hlens'⟩
      · left
        refine ⟨n, ?_⟩
        simp only [concatPointArraysE, htake1, htake2, harr, if_true, hcc, hih]
      · right
        refine ⟨(name, ravelF3 (cat3
            (sliceInit3 (reshapePointArray base.dims arr) a)
            (reshapePointArray other.dims
              (lookupArr other.point_arrays name)) a)) :: out', ?_, ?_, ?_⟩
        · simp only [concatPointArraysE, htake1, htake2, harr, if_true, hcc,
            hout']
        · show name :: namesOf out' = name :: namesOf tl
          rw [hnames']
        · intro en hen
          rcases List.mem_cons.mp hen with h | h
          · subst h
            show (ravelF3 (cat3
                (sliceInit3 (reshapePointArray base.dims arr) a)
                (reshapePointArray other.dims
                  (lookupArr other.point_arrays name)) a)).length = _
            rw [ravelF3_length]
            interval_cases a
            · show (base.dims.1 - 1 + other.dims.1) * base.dims.2.1
                  * base.dims.2.2
                = (getAt3 base.dims 0 + getAt3 other.dims 0 - 1)
                  * base.dims.2.1 * base.dims.2.2
              have hf : base.dims.1 - 1 + other.dims.1
                  = getAt3 base.dims 0 + getAt3 other.dims 0 - 1 := by
                have h1 : getAt3 base.dims 0 = base.dims.1 := rfl
                have h2 : getAt3 other.dims 0 = other.dims.1 := rfl
                omega
              rw [hf]
            · show base.dims.1 * (base.dims.2.1 - 1 + other.dims.2.1)
                  * base.dims.2.2
                = base.dims.1
                  * (getAt3 base.dims 1 + getAt3 other.dims 1 - 1)
                  * base.dims.2.2
              have hf : base.dims.2.1 - 1 + other.dims.2.1
                  = getAt3 base.dims 1 + getAt3 other.dims 1 - 1 := by
                have h1 : getAt3 base.dims 1 = base.dims.2.1 := rfl
                have h2 : getAt3 other.dims 1 = other.dims.2.1 := rfl
                omega
              rw [hf]
            · show base.dims.1 * base.dims.2.1
                  * (base.dims.2.2 - 1 + other.dims.2.2)
                = base.dims.1 * base.dims.2.1
                  * (getAt3 base.dims 2 + getAt3 other.dims 2 - 1)
              have hf : base.dims.2.2 - 1 + other.dims.2.2
                  = getAt3 base.dims 2 + getAt3 other.dims 2 - 1 := by
                have h1 : getAt3 base.dims 2 = base.dims.2.2 := rfl
                have h2 : getAt3 other.dims 2 = other.dims.2.2 := rfl
                omega
              rw [hf]
          · exact hlens' en h

/-- C7 (amended): for an axis in `{0, 1, 2}` and well-formed inputs with
at least two point layers along that axis, `concatenate` either returns a
fully well-formed merged grid or signals one of the five specified error
kinds — never a numpy-level exception and never a partial or corrupt
grid.  (The embedding is a pure function, so the inputs are unchanged on
error by construction.)  Both restrictions are necessary, as the claim's
counterexample shows: an axis outside the range can surface a numpy
exception, and a degenerate (size-1) concatenation axis yields a
successful but corrupt output whose cell arrays outgrow the lattice. -/
theorem c7_valid_or_specified (base other : Grid) (a : ℕ) (tol : ℚ)
    (ha : a < 3) (hb : WF base) (ho : WF other)
    (hb2 : 2 ≤ getAt3 base.dims a) (ho2 : 2 ≤ getAt3 other.dims a) :
    (∃ J, concatenate base other (a : ℤ) tol = Except.ok J ∧ WF J) ∨
      ∃ e, concatenate base other (a : ℤ) tol = Except.error e ∧
        SpecifiedError e := by
  obtain ⟨hbp1, hbp2, hbp3, hblen, hbpa, hbca, hbndp, hbndc⟩ := hb
  obtain ⟨hop1, hop2, hop3, holen, hopa, hoca, hondp, hondc⟩ := ho
  have hguard : ¬ (2 : ℤ) < (a : ℤ) := by omega
  cases hdc : dimsIncompat base.dims other.dims (a : ℤ) with
  | true =>
    right
    refine ⟨ConcatError.dimensionMismatch base.dims other.dims, ?_, trivial⟩
    unfold concatenate
    rw [if_neg hguard]
    simp [hdc]
  | false =>
  have hoff : ∀ i, i < 3 → i ≠ a → getAt3 base.dims i = getAt3 other.dims i := by
    intro i hi hne
    by_contra hcon
    have hd : dimsIncompat base.dims other.dims (a : ℤ) = true :=
      dimsIncompat_iff.mpr ⟨i, hi, by omega, hcon⟩
    rw [hdc] at hd
    exact Bool.noConfusion hd
  cases hpn : setEqB (namesOf base.point_arrays)
      (namesOf other.point_arrays) with
  | false =>
    right
    refine ⟨ConcatError.pointFieldNameMismatch, ?_, trivial⟩
    unfold concatenate
    rw [if_neg hguard]
    simp [hdc, hpn]
  | true =>
  cases hcn : setEqB (namesOf base.cell_arrays) (namesOf other.cell_arrays) with
  | false =>
    right
    refine ⟨ConcatError.cellFieldNameMismatch, ?_, trivial⟩
    unfold concatenate
    rw [if_neg hguard]
    simp [hdc, hpn, hcn]
  | true =>
  have ht1 : take4E (points_matrix base) (-1) (a : ℤ)
      = Except.ok (del4 (points_matrix base) a (getAt3 base.dims a - 1)) := by
    rw [take4E_last (by omega) (by rw [size4_points_matrix ha]; omega),
      size4_points_matrix ha]
  have ht2 : take4E (points_matrix other) 0 (a : ℤ)
      = Except.ok (del4 (points_matrix other) a 0) :=
    take4E_first (by omega) (by rw [size4_points_matrix ha]; omega)
  cases hac : allclose3 (del4 (points_matrix base) a (getAt3 base.dims a - 1))
      (del4 (points_matrix other) a 0) tol with
  | false =>
    right
    refine ⟨ConcatError.seamMismatch (a : ℤ) tol, ?_, trivial⟩
    unfold concatenate
    rw [if_neg hguard]
    simp [hdc, hpn, hcn, ht1, ht2, hac]
  | true =>
  have hcat : concat4E (sliceInit4 (points_matrix base) a)
      (points_matrix other) (a : ℤ)
      = Except.ok (cat4 (sliceInit4 (points_matrix base) a)
          (points_matrix other) a) := by
    apply concat4E_eval (by omega)
    interval_cases a
    · exact shapeOk4_of_eq (Or.inl rfl) (Or.inr (hoff 1 (by omega) (by omega)))
        (Or.inr (hoff 2 (by omega) (by omega))) (Or.inr rfl)
    · exact shapeOk4_of_eq (Or.inr (hoff 0 (by omega) (by omega)))
        (Or.inl rfl) (Or.inr (hoff 2 (by omega) (by omega))) (Or.inr rfl)
    · exact shapeOk4_of_eq (Or.inr (hoff 0 (by omega) (by omega)))
        (Or.inr (hoff 1 (by omega) (by omega))) (Or.inl rfl) (Or.inr rfl)
  rcases concatPointArraysE_wf base other a ha hoff (by omega) (by omega)
      base.point_arrays with ⟨n, hpa⟩ | ⟨outP, houtP, hnamesP, hlensP⟩
  · right
    refine ⟨ConcatError.seamFieldMismatch (a : ℤ) n, ?_, trivial⟩
    unfold concatenate
    rw [if_neg hguard]
    simp only [hdc, hpn, hcn, Bool.not_true, Bool.false_eq_true, if_false,
      ht1, ht2, hac, if_true, pyIdx3_natCast ha, hcat, hpa]
  · obtain ⟨outC, houtC, hnamesC, hlensC⟩ :=
      concatCellArraysE_wf base other a ha hoff hb2 ho2 base.cell_arrays
    have hC3 : (cat4 (sliceInit4 (points_matrix base) a)
        (points_matrix other) a).s3 = 3 := by
      interval_cases a
      · rfl
      · rfl
      · rfl
    have hdvd : ((cat4 (sliceInit4 (points_matrix base) a)
        (points_matrix other) a).s0
        * (cat4 (sliceInit4 (points_matrix base) a)
            (points_matrix other) a).s1
        * (cat4 (sliceInit4 (points_matrix base) a)
            (points_matrix other) a).s2
        * (cat4 (sliceInit4 (points_matrix base) a)
            (points_matrix other) a).s3 % 3 == 0) = true := by
      rw [hC3, Nat.mul_mod_left]
      rfl
    rcases hre : reshapePtsE (cat4 (sliceInit4 (points_matrix base) a)
        (points_matrix other) a) with e | pts
    · exfalso
      unfold reshapePtsE at hre
      rw [if_pos hdvd] at hre
      exact Except.noConfusion hre
    · have hptsv := hre
      unfold reshapePtsE at hptsv
      rw [if_pos hdvd] at hptsv
      injection hptsv with hptsv
      have hlenPts : pts.length = prodDims (setAt3 base.dims a
          (getAt3 base.dims a + getAt3 other.dims a - 1)) := by
        rw [← hptsv, List.length_map, List.length_range, hC3,
          Nat.mul_div_cancel _ (by norm_num : (0 : ℕ) < 3)]
        interval_cases a
        · show (base.dims.1 - 1 + other.dims.1) * base.dims.2.1 * base.dims.2.2
            = (getAt3 base.dims 0 + getAt3 other.dims 0 - 1) * base.dims.2.1
              * base.dims.2.2
          have hf : base.dims.1 - 1 + other.dims.1
              = getAt3 base.dims 0 + getAt3 other.dims 0 - 1 := by
            have h1 : getAt3 base.dims 0 = base.dims.1 := rfl
            have h2 : getAt3 other.dims 0 = other.dims.1 := rfl
            omega
          rw [hf]
        · show base.dims.1 * (base.dims.2.1 - 1 + other.dims.2.1)
              * base.dims.2.2
            = base.dims.1 * (getAt3 base.dims 1 + getAt3 other.dims 1 - 1)
              * base.dims.2.2
          have hf : base.dims.2.1 - 1 + other.dims.2.1
              = getAt3 base.dims 1 + getAt3 other.dims 1 - 1 := by
            have h1 : getAt3 base.dims 1 = base.dims.2.1 := rfl
            have h2 : getAt3 other.dims 1 = other.dims.2.1 := rfl
            omega
          rw [hf]
        · show base.dims.1 * base.dims.2.1
              * (base.dims.2.2 - 1 + other.dims.2.2)
            = base.dims.1 * base.dims.2.1
              * (getAt3 base.dims 2 + getAt3 other.dims 2 - 1)
          have hf : base.dims.2.2 - 1 + other.dims.2.2
              = getAt3 base.dims 2 + getAt3 other.dims 2 - 1 := by
            have h1 : getAt3 base.dims 2 = base.dims.2.2 := rfl
            have h2 : getAt3 other.dims 2 = other.dims.2.2 := rfl
            omega
          rw [hf]
      left
      refine ⟨Grid.mk (setAt3 base.dims a
          (getAt3 base.dims a + getAt3 other.dims a - 1)) pts outP outC [],
        ?_, ?_⟩
      · unfold concatenate
        rw [if_neg hguard]
        simp only [hdc, hpn, hcn, Bool.not_true, Bool.false_eq_true, if_false,
          ht1, ht2, hac, if_true, pyIdx3_natCast ha, hcat, houtP, houtC, hre]
      · refine ⟨?_, ?_, ?_, hlenPts, ?_, ?_, ?_, ?_⟩
        · interval_cases a
          · show 0 < getAt3 base.dims 0 + getAt3 other.dims 0 - 1
            omega
          · exact hbp1
          · exact hbp1
        · interval_cases a
          · exact hbp2
          · show 0 < getAt3 base.dims 1 + getAt3 other.dims 1 - 1
            omega
          · exact hbp2
        · interval_cases a
          · exact hbp3
          · exact hbp3
          · show 0 < getAt3 base.dims 2 + getAt3 other.dims 2 - 1
            omega
        · exact hlensP
        · exact hlensC
        · show (namesOf outP).Nodup
          rw [hnamesP]
          exact hbndp
        · show (namesOf outC).Nodup
          rw [hnamesC]
          exact hbndc

/-- C8: the cell-array loop of the source (lines 238-243) applies no
seam-equality check: for every list of cell fields — whatever their
values on either side of the seam — no error is signalled, and each
field is concatenated unchanged along the axis (the base grid's cell
layers followed by the other grid's, no deduplication). -/
theorem c8_cell_values_unchecked (base other : Grid) (a : ℕ) (ha : a < 3)
    (hoff : ∀ i, i < 3 → i ≠ a → getAt3 base.dims i = getAt3 other.dims i) :
    ∀ l, concatCellArraysE base other (a : ℤ) l
      = Except.ok (l.map (fun p =>
          (p.1, ravelF3 (cat3 (reshapeCellArray base.dims p.2)
            (reshapeCellArray other.dims (lookupArr other.cell_arrays p.1))
            a)))) := by
  intro l
  induction l with
  | nil => rfl
  | cons hd tl ih =>
    obtain ⟨name, arr⟩ := hd
    have hcc : concat3E (reshapeCellArray base.dims arr)
        (reshapeCellArray other.dims (lookupArr other.cell_arrays name))
        (a : ℤ)
        = Except.ok (cat3 (reshapeCellArray base.dims arr)
            (reshapeCellArray other.dims (lookupArr other.cell_arrays name))
            a) := by
      apply concat3E_eval ha
      interval_cases a
      · exact shapeOk3_of_eq (Or.inl rfl)
          (Or.inr (congrArg cellDim (hoff 1 (by omega) (by omega))))
          (Or.inr (congrArg cellDim (hoff 2 (by omega) (by omega))))
      · exact shapeOk3_of_eq
          (Or.inr (congrArg cellDim (hoff 0 (by omega) (by omega))))
          (Or.inl rfl)
          (Or.inr (congrArg cellDim (hoff 2 (by omega) (by omega))))
      · exact shapeOk3_of_eq
          (Or.inr (congrArg cellDim (hoff 0 (by omega) (by omega))))
          (Or.inr (congrArg cellDim (hoff 1 (by omega) (by omega))))
          (Or.inl rfl)
    simp only [concatCellArraysE, hcc, ih, List.map_cons]

/-- C8 witness: on the spec's §8 grids (axis 0), a cell field whose two
sides hold the unrelated values 7 and 9 passes without any check and
comes out as their plain concatenation. -/
theorem c8_cell_values_unchecked_witness :
    ((0 : ℕ) < 3 ∧
      (∀ i, i < 3 → i ≠ 0 → getAt3 exA.dims i = getAt3 exB.dims i)) ∧
    concatCellArraysE exA exB ((0 : ℕ) : ℤ) [("q", [7])]
      = Except.ok ([("q", [7])].map (fun p =>
          (p.1, ravelF3 (cat3 (reshapeCellArray exA.dims p.2)
            (reshapeCellArray exB.dims (lookupArr exB.cell_arrays p.1))
            0)))) :=
  ⟨⟨by decide, by decide⟩,
    c8_cell_values_unchecked exA exB 0 (by decide) (by decide) [("q", [7])]⟩

theorem withFieldArrays_dims (G : Grid) (fs : List (String × List ℚ)) :
    (withFieldArrays G fs).dims = G.dims := rfl

theorem withFieldArrays_point_arrays (G : Grid)
    (fs : List (String × List ℚ)) :
    (withFieldArrays G fs).point_arrays = G.point_arrays := rfl

theorem withFieldArrays_cell_arrays (G : Grid)
    (fs : List (String × List ℚ)) :
    (withFieldArrays G fs).cell_arrays = G.cell_arrays := rfl

theorem points_matrix_withFieldArrays (G : Grid)
    (fs : List (String × List ℚ)) :
    points_matrix (withFieldArrays G fs) = points_matrix G := rfl

/-- The point-array loop reads nothing from the field-level arrays. -/
theorem concatPointArraysE_fields (base other : Grid)
    (fb fo : List (String × List ℚ)) (axis : ℤ) (ax3 : ℕ) :
    ∀ l, concatPointArraysE (withFieldArrays base fb)
        (withFieldArrays other fo) axis ax3 l
      = concatPointArraysE base other axis ax3 l := by
  intro l
  induction l with
  | nil => rfl
  | cons hd tl ih =>
    obtain ⟨name, arr⟩ := hd
    simp only [concatPointArraysE, withFieldArrays_dims,
      withFieldArrays_point_arrays, ih]

/-- The cell-array loop reads nothing from the field-level arrays. -/
theorem concatCellArraysE_fields (base other : Grid)
    (fb fo : List (String × List ℚ)) (axis : ℤ) :
    ∀ l, concatCellArraysE (withFieldArrays base fb)
        (withFieldArrays other fo) axis l
      = concatCellArraysE base other axis l := by
  intro l
  induction l with
  | nil => rfl
  | cons hd tl ih =>
    obtain ⟨name, arr⟩ := hd
    simp only [concatCellArraysE, withFieldArrays_dims,
      withFieldArrays_cell_arrays, ih]

/-- C10: `concatenate` never reads the inputs' field-level (non-point,
non-cell) data arrays — its value is unchanged when those arrays are
replaced by anything — and every successful output is a freshly
constructed grid carrying only the concatenated point and cell arrays,
with an empty field-array dictionary. -/
theorem c10_field_arrays_ignored (base other : Grid) (axis : ℤ) (tol : ℚ)
    (fb fo : List (String × List ℚ)) :
    concatenate (withFieldArrays base fb) (withFieldArrays other fo) axis tol
      = concatenate base other axis tol ∧
    ∀ J, concatenate base other axis tol = Except.ok J →
      J.field_arrays = [] := by
  constructor
  · simp only [concatenate, points_matrix_withFieldArrays,
      withFieldArrays_dims, withFieldArrays_point_arrays,
      withFieldArrays_cell_arrays, concatPointArraysE_fields,
      concatCellArraysE_fields]
  · intro J hok
    obtain ⟨ax3, np, npd, ncd, pts, hpy, hnp, hnpd, hncd, hpts, hJ⟩ :=
      concatenate_ok_elim hok
    rw [hJ]

/-- C10 witness: on the spec's §8 grids, arbitrary field arrays on the
inputs change nothing, and the successful output carries none. -/
theorem c10_field_arrays_ignored_witness :
    (concatenate (withFieldArrays exA [("misc", [1])])
        (withFieldArrays exB [("junk", [2])]) ((0 : ℕ) : ℤ) 0
      = concatenate exA exB ((0 : ℕ) : ℤ) 0) ∧
    (concatenate exA exB ((0 : ℕ) : ℤ) 0 = Except.ok exJ ∧
      exJ.field_arrays = []) :=
  ⟨(c10_field_arrays_ignored exA exB ((0 : ℕ) : ℤ) 0 [("misc", [1])]
      [("junk", [2])]).1,
    by with_unfolding_all rfl,
    (c10_field_arrays_ignored exA exB ((0 : ℕ) : ℤ) 0 [("misc", [1])]
      [("junk", [2])]).2 exJ (by with_unfolding_all rfl)⟩

/-- C7 counterexample, in two parts matching the two restrictions of the
amended claim.  First, not every input yields a specified error: with
`axis = -1` on a 1×1×1 grid, `np.take(..., -1, axis=-1)` raises a numpy
`AxisError`/`IndexError` (here `npRaised`), which is none of the five
error kinds the spec names (§7).  Second, a grid degenerate (size 1)
along the concatenation axis can produce a corrupt output: `dgA` (dims
1×2×2) and `dgB` (dims 2×2×2) are well-formed with a coincident seam,
yet `concatenate dgA dgB 0 0` succeeds with `dgJ`, whose single cell
array holds two values on a one-cell 2×2×2 lattice — the source's
`_reshape_cell_array` maps the degenerate axis to cell extent 1 on both
sides, so the concatenated cell array outgrows the output lattice. -/
theorem c7_counterexample :
    (errorOf (concatenate g55 g55 (-1) 0) = some ConcatError.npRaised ∧
      ¬ SpecifiedError ConcatError.npRaised) ∧
    (WF dgA ∧ WF dgB ∧
      concatenate dgA dgB ((0 : ℕ) : ℤ) 0 = Except.ok dgJ ∧ ¬ WF dgJ) :=
  ⟨⟨by with_unfolding_all rfl, fun h => h⟩,
    ⟨by decide, by decide, by with_unfolding_all rfl, by decide⟩⟩

/-- C7 witness: the amended theorem applies to the spec's own §8 scenario
(two well-formed 2×2×1 grids joined along axis 0). -/
theorem c7_valid_or_specified_witness :
    ((0 : ℕ) < 3 ∧ WF exA ∧ WF exB ∧
      2 ≤ getAt3 exA.dims 0 ∧ 2 ≤ getAt3 exB.dims 0) ∧
    ((∃ J, concatenate exA exB ((0 : ℕ) : ℤ) 0 = Except.ok J ∧ WF J) ∨
      ∃ e, concatenate exA exB ((0 : ℕ) : ℤ) 0 = Except.error e ∧
        SpecifiedError e) :=
  ⟨⟨by decide, by decide, by decide, by decide, by decide⟩,
    c7_valid_or_specified exA exB 0 0 (by decide) (by decide) (by decide)
      (by decide) (by decide)⟩

end PyVistaConcat
